import Mathlib

/-!
# Hotel booking profile module: profile fetch, retry loop and failure classification

A shallow embedding of `src/firebase/userService.js` (`saveUserData`,
`getUserData`, `updateUserData`, `checkUserIsAdmin`), of the `fetchUserData`
effect, the render decision and the two form handlers (`handleProfileUpdate`,
`handlePasswordUpdate`) of `src/pages/Profile.jsx`, and of `googleLogin` of
`src/context/AuthContext.jsx`.

JavaScript values are embedded as `JsVal`, object literals and Firestore
documents as association lists `Doc`, the `users` collection as a function from
uid to document.  Asynchronous code is embedded in explicit state passing: every
remote call takes the network condition it meets as an argument, and the
externally visible calls are recorded in a log.  The `while` loop of
`fetchUserData` runs on fuel (one unit per iteration); a run whose fuel is used
up inside the loop is reported as still running, with the state it has reached.
-/

namespace HotelBooking

/-! ## JavaScript values and objects -/

/-- The JavaScript values that occur in user documents and component state. -/
inductive JsVal where
  | undefined
  | null
  | bool (b : Bool)
  | num (n : Int)
  | str (s : String)
  | time (t : Nat)
  deriving DecidableEq, Repr

namespace JsVal

/-- JavaScript truthiness (`!!v`); a timestamp is an object, hence truthy. -/
def truthy : JsVal → Bool
  | undefined => false
  | null => false
  | bool b => b
  | num n => n != 0
  | str s => s != ""
  | time _ => true

/-- The JavaScript operator `a || b`. -/
def or (a b : JsVal) : JsVal := if a.truthy then a else b

/-- A nullable string property (`string | null`) as a JavaScript value. -/
def ofNullable : Option String → JsVal
  | some s => str s
  | none => null

end JsVal

/-- An object literal or a Firestore document: its fields in order. -/
abbrev Doc := List (String × JsVal)

namespace Doc

/-- Property read `d.k`; an absent property reads as `undefined`. -/
def get (d : Doc) (k : String) : JsVal := (d.lookup k).getD JsVal.undefined

/-- Whether the object has the own property `k`. -/
def has (d : Doc) (k : String) : Bool := (d.lookup k).isSome

/-- The object `{ ...d, k: v }`. -/
def set (d : Doc) (k : String) (v : JsVal) : Doc :=
  if d.has k then d.map (fun p => if p.1 == k then (p.1, v) else p) else d ++ [(k, v)]

/-- The object `{ ...d, ...e }`, which is also the document `updateDoc` leaves
when it applies the fields `e` to the stored document `d`. -/
def merge (d e : Doc) : Doc := e.foldl (fun acc p => acc.set p.1 p.2) d

end Doc

/-- Optional chaining `userData?.k` on a value that is an object or `null`. -/
def optGet (userData : Option Doc) (k : String) : JsVal :=
  match userData with
  | some d => d.get k
  | none => JsVal.undefined

/-- A JavaScript error object: its `code` (absent on a plain `Error`) and its
`message`. -/
structure JsError where
  code : Option String
  message : String
  deriving DecidableEq, Repr

/-- The error `new Error(message)`. -/
def JsError.new (message : String) : JsError := { code := none, message := message }

/-- The identity `currentUser` of Firebase Auth, as far as the module reads it. -/
structure User where
  uid : String
  displayName : Option String
  email : Option String
  photoURL : Option String
  /-- The `providerId`s of the entries of `providerData`, in order. -/
  providerData : List String := []
  deriving DecidableEq, Repr

/-! ## The store -/

/-- The `users` collection: uid to document. -/
abbrev Firestore := String → Option Doc

namespace Firestore

/-- The empty collection. -/
def empty : Firestore := fun _ => none

/-- The collection after `setDoc(doc(db, "users", uid), d)`. -/
def setDoc (fs : Firestore) (uid : String) (d : Doc) : Firestore :=
  fun k => if k = uid then some d else fs k

/-- The collection after `updateDoc(doc(db, "users", uid), d)` on an existing
document. -/
def updateDoc (fs : Firestore) (uid : String) (d : Doc) : Firestore :=
  fun k => if k = uid then (fs k).map (fun old => Doc.merge old d) else fs k

end Firestore

/-- What the race `Promise.race([dbOperation(), timeoutPromise])` of one
`getUserData` call meets: the store answers in time, the store call rejects with
an error in time, or the 10000 ms timer settles first. -/
inductive Net where
  | ok
  | fails (e : JsError)
  | slow
  deriving DecidableEq, Repr

/-! ## `userService.js` -/

/-- The error the timeout promise of `getUserData` rejects with. -/
def timeoutError : JsError := JsError.new "Database request timeout"

/-- The `catch` block of `getUserData`: the error it throws for the error caught. -/
def getUserDataCatch (error : JsError) : JsError :=
  if error.message = "Database request timeout" then
    JsError.new "Connection to database timed out. Please check your internet connection and try again."
  else if error.code = some "permission-denied" then
    JsError.new "You don't have permission to access this data"
  else if error.code = some "unavailable" ∨ error.code = some "failed-precondition" then
    JsError.new "Network error: Unable to connect to the database"
  else if error.code = some "resource-exhausted" then
    JsError.new "Firebase quota exceeded. Please try again later"
  else
    JsError.new ("Database error: " ++ error.message)

/-- The function `getUserData(uid)`: `dbReady` is the truthiness of `db`, `fs` the
collection, `net` what the race meets.  The result is the document, `none` for
`null`, or the error thrown. -/
def getUserData (dbReady : Bool) (fs : Firestore) (net : Net) (uid : String) :
    Except JsError (Option Doc) :=
  if uid = "" then
    Except.error (JsError.new "User ID is required")
  else if !dbReady then
    Except.error (JsError.new "Database connection error")
  else
    match net with
    | Net.ok => Except.ok (fs uid)
    | Net.fails e => Except.error (getUserDataCatch e)
    | Net.slow => Except.error (getUserDataCatch timeoutError)

/-- The `catch` block of `updateUserData`. -/
def updateUserDataCatch (error : JsError) : JsError :=
  if error.code = some "permission-denied" then
    JsError.new "You don't have permission to update this data"
  else if error.code = some "unavailable" ∨ error.code = some "failed-precondition" then
    JsError.new "Network error: Unable to connect to the database"
  else if error.code = some "resource-exhausted" then
    JsError.new "Firebase quota exceeded. Please try again later"
  else
    JsError.new ("Database error: " ++ error.message)

/-- The function `updateUserData(uid, userData)`: `now` is the value of
`new Date()`, `readFault` the error `getDoc` rejects with (if any), `writeFault`
the error `updateDoc` or `setDoc` rejects with (if any).  The result is the value
returned or the error thrown, with the collection afterwards. -/
def updateUserData (dbReady : Bool) (now : Nat) (readFault writeFault : Option JsError)
    (fs : Firestore) (uid : String) (userData : Doc) : Except JsError Bool × Firestore :=
  if uid = "" then
    (Except.error (JsError.new "User ID is required"), fs)
  else if !dbReady then
    (Except.error (JsError.new "Database connection error"), fs)
  else
    match readFault with
    | some e => (Except.error (updateUserDataCatch e), fs)
    | none =>
      match writeFault with
      | some e => (Except.error (updateUserDataCatch e), fs)
      | none =>
        if (fs uid).isSome then
          (Except.ok true, fs.updateDoc uid (userData.set "updatedAt" (JsVal.time now)))
        else
          (Except.ok true,
            fs.setDoc uid ((userData.set "createdAt" (JsVal.time now)).set "updatedAt"
              (JsVal.time now)))

/-! ## `Profile.jsx`: the `fetchUserData` effect -/

/-- A call of `fetchUserData` that is visible outside the component. -/
inductive Event where
  | getUserData (uid : String)
  | wait (ms : Nat)
  | updateUserData (uid : String) (userData : Doc)
  deriving DecidableEq, Repr

/-- What one run of `fetchUserData` meets outside the component: the truthiness
of `db`, the network condition of the k-th call of `getUserData` (counted from
0), the faults of the read and of the write inside `updateUserData`, and the
clock. -/
structure Env where
  dbReady : Bool
  fetchNet : Nat → Net
  updateRead : Option JsError
  updateWrite : Option JsError
  now : Nat

/-- The state `fetchUserData` acts on: the component state it sets, the
collection, and the log of its outside calls. -/
structure State where
  profileData : Doc
  errorMessage : String
  fetchingData : Bool
  store : Firestore
  log : List Event

/-- The default picture of `Profile.jsx`. -/
def defaultPic : String := "https://randomuser.me/api/portraits/men/73.jpg"

/-- The initial value of the `profileData` state. -/
def initialProfileData : Doc :=
  [("name", JsVal.str ""), ("email", JsVal.str ""), ("phonenum", JsVal.str ""),
   ("address", JsVal.str ""), ("pincode", JsVal.str ""), ("dob", JsVal.str ""),
   ("profilePic", JsVal.str defaultPic)]

/-- The component state at mount, over the collection `fs`. -/
def State.initial (fs : Firestore) : State :=
  { profileData := initialProfileData, errorMessage := "", fetchingData := true,
    store := fs, log := [] }

/-- The local variables of the retry loop, the number of `getUserData` calls
made so far, and the log. -/
structure LoopState where
  userData : Option Doc
  retryCount : Nat
  fetches : Nat
  log : List Event

/-- The constant `maxRetries`. -/
def maxRetries : Nat := 3

/-- The loop condition `!userData && retryCount < maxRetries`; a document is an
object, hence truthy. -/
def loopCond (s : LoopState) : Bool := s.userData.isNone && decide (s.retryCount < maxRetries)

/-- One run of the body of the `while` loop: the state afterwards, and the error
it re-throws, if it does. -/
def loopBody (env : Env) (fs : Firestore) (uid : String) (s : LoopState) :
    LoopState × Option JsError :=
  match getUserData env.dbReady fs (env.fetchNet s.fetches) uid with
  | Except.ok userData =>
    let s1 : LoopState :=
      { s with userData := userData, fetches := s.fetches + 1,
               log := s.log ++ [Event.getUserData uid] }
    if userData.isNone && decide (s.retryCount < maxRetries - 1) then
      ({ s1 with log := s1.log ++ [Event.wait (1000 * 2 ^ s.retryCount)],
                 retryCount := s.retryCount + 1 }, none)
    else
      (s1, none)
  | Except.error fetchError =>
    let s1 : LoopState :=
      { s with fetches := s.fetches + 1, log := s.log ++ [Event.getUserData uid] }
    if s.retryCount < maxRetries - 1 then
      ({ s1 with retryCount := s.retryCount + 1,
                 log := s1.log ++ [Event.wait (1000 * 2 ^ (s.retryCount + 1))] }, none)
    else
      (s1, some fetchError)

/-- How a run of the retry loop stands: it ended normally, it threw, or it is
still running when the fuel is used up. -/
inductive LoopRun where
  | done (s : LoopState)
  | threw (s : LoopState) (e : JsError)
  | running (s : LoopState)

/-- The `while` loop of `fetchUserData`, one unit of fuel per iteration. -/
def retryLoop (env : Env) (fs : Firestore) (uid : String) : Nat → LoopState → LoopRun
  | 0, s => if loopCond s then LoopRun.running s else LoopRun.done s
  | fuel + 1, s =>
    if loopCond s then
      match loopBody env fs uid s with
      | (s1, some e) => LoopRun.threw s1 e
      | (s1, none) => retryLoop env fs uid fuel s1
    else LoopRun.done s

/-- The object `newUserData` built from the identity. -/
def newUserData (u : User) : Doc :=
  [("name", (JsVal.ofNullable u.displayName).or (JsVal.str "")),
   ("email", (JsVal.ofNullable u.email).or (JsVal.str "")),
   ("phonenum", JsVal.str ""), ("address", JsVal.str ""),
   ("pincode", JsVal.str ""), ("dob", JsVal.str "")]

/-- The argument of `setProfileData` after the loop. -/
def profileOf (userData : Option Doc) (u : User) : Doc :=
  [("name", ((optGet userData "name").or (JsVal.ofNullable u.displayName)).or (JsVal.str "")),
   ("email", ((optGet userData "email").or (JsVal.ofNullable u.email)).or (JsVal.str "")),
   ("phonenum", (optGet userData "phonenum").or (JsVal.str "")),
   ("address", (optGet userData "address").or (JsVal.str "")),
   ("pincode", (optGet userData "pincode").or (JsVal.str "")),
   ("dob", (optGet userData "dob").or (JsVal.str "")),
   ("createdAt", optGet userData "createdAt"),
   ("profilePic", (JsVal.ofNullable u.photoURL).or (JsVal.str defaultPic))]

/-- The argument of `setProfileData` in the `catch` block. -/
def fallbackProfile (u : User) : Doc :=
  [("name", (JsVal.ofNullable u.displayName).or (JsVal.str "")),
   ("email", (JsVal.ofNullable u.email).or (JsVal.str "")),
   ("phonenum", JsVal.str ""), ("address", JsVal.str ""),
   ("pincode", JsVal.str ""), ("dob", JsVal.str ""),
   ("profilePic", (JsVal.ofNullable u.photoURL).or (JsVal.str defaultPic))]

/-- The message `fetchUserData` sets in its `catch` block. -/
def loadFailedMessage : String :=
  "Failed to load your profile data. Please refresh and try again."

/-- The block `if (!userData) ...` after the loop: the value of `userData`, the
collection and the log afterwards. -/
def createIfMissing (env : Env) (u : User) (fs : Firestore) (l : LoopState) :
    Option Doc × Firestore × List Event :=
  match l.userData with
  | some d => (some d, fs, l.log)
  | none =>
    match updateUserData env.dbReady env.now env.updateRead env.updateWrite fs u.uid
        (newUserData u) with
    | (Except.ok _, fs1) =>
      (some (newUserData u), fs1, l.log ++ [Event.updateUserData u.uid (newUserData u)])
    | (Except.error _, fs1) =>
      (none, fs1, l.log ++ [Event.updateUserData u.uid (newUserData u)])

/-- How a run of `fetchUserData` stands: it returned, leaving the state `s`, or it
is still in the retry loop when the fuel is used up, with the state `s` and the
loop variables `l`.  There is no throwing outcome: all that can throw stands
inside the `try` block, and the `catch` and `finally` blocks call state setters
only. -/
inductive Run where
  | returned (s : State)
  | pending (s : State) (l : LoopState)

/-- The function `fetchUserData` of the mount effect, run on the component state
`s` with `fuel` iterations for its loop. -/
def fetchUserData (env : Env) (currentUser : Option User) (fuel : Nat) (s : State) : Run :=
  match currentUser with
  | none => Run.returned { s with fetchingData := false }
  | some u =>
    if u.uid = "" then
      Run.returned { s with fetchingData := false }
    else
      let s0 : State := { s with fetchingData := true, errorMessage := "" }
      match retryLoop env s0.store u.uid fuel
          { userData := none, retryCount := 0, fetches := 0, log := s0.log } with
      | LoopRun.running l => Run.pending { s0 with log := l.log } l
      | LoopRun.threw l _ =>
        Run.returned
          { s0 with profileData := fallbackProfile u, errorMessage := loadFailedMessage,
                    fetchingData := false, log := l.log }
      | LoopRun.done l =>
        match createIfMissing env u s0.store l with
        | (userData, fs1, log1) =>
          Run.returned
            { profileData := profileOf userData u, errorMessage := "",
              fetchingData := false, store := fs1, log := log1 }

/-! ## `Profile.jsx`: the render decision -/

/-- What the `Profile` component returns. -/
inductive View where
  | redirectHome
  | spinner
  | unavailable
  | profilePage
  deriving DecidableEq, Repr

/-- The value `isLoggedIn: !!currentUser` of the auth context. -/
def isLoggedIn (currentUser : Option User) : Bool := currentUser.isSome

/-- The chain of `if`s at the end of `Profile`: `loggedIn` and `loading` are the
values of `isLoggedIn` and of the `loading` state at render time. -/
def render (loggedIn loading : Bool) (s : State) : View :=
  if !loggedIn && !loading then View.redirectHome
  else if loading || s.fetchingData then View.spinner
  else if loggedIn && !(s.profileData.get "email").truthy then View.unavailable
  else View.profilePage

/-! ## Observations on the log -/

/-- The number of `getUserData` calls in a log. -/
def fetchCount (log : List Event) : Nat :=
  (log.filterMap (fun ev => match ev with
    | Event.getUserData uid => some uid
    | _ => none)).length

/-- The delays waited in a log, in order, in milliseconds. -/
def waits (log : List Event) : List Nat :=
  log.filterMap (fun ev => match ev with
    | Event.wait ms => some ms
    | _ => none)

/-- The `updateUserData` calls in a log, in order. -/
def updateCalls (log : List Event) : List (String × Doc) :=
  log.filterMap (fun ev => match ev with
    | Event.updateUserData uid d => some (uid, d)
    | _ => none)

/-! ## The failure classes of `getUserData`, as the specification words them -/

/-- The failure classes a `getUserData` error falls in. -/
inductive FailureClass where
  | timeout
  | permissionDenied
  | networkUnavailable
  | quotaExceeded
  | unknown
  deriving DecidableEq, Repr

/-- The class of an error `(code, message)`: the timeout message first, then the
store codes, else unknown. -/
def failureClass (code : Option String) (message : String) : FailureClass :=
  if message = "Database request timeout" then FailureClass.timeout
  else if code = some "permission-denied" then FailureClass.permissionDenied
  else if code = some "unavailable" ∨ code = some "failed-precondition" then
    FailureClass.networkUnavailable
  else if code = some "resource-exhausted" then FailureClass.quotaExceeded
  else FailureClass.unknown

/-- The message shown for a failure class; the unknown class carries the
original message. -/
def classMessage (c : FailureClass) (original : String) : String :=
  match c with
  | FailureClass.timeout =>
    "Connection to database timed out. Please check your internet connection and try again."
  | FailureClass.permissionDenied => "You don't have permission to access this data"
  | FailureClass.networkUnavailable => "Network error: Unable to connect to the database"
  | FailureClass.quotaExceeded => "Firebase quota exceeded. Please try again later"
  | FailureClass.unknown => "Database error: " ++ original

/-! ## Scenarios -/

/-- The identity `{id: "u1", displayName: "Ann", email: "ann@x.com"}`. -/
def ann : User :=
  { uid := "u1", displayName := some "Ann", email := some "ann@x.com", photoURL := none }

/-- An identity without an email. -/
def annNoEmail : User :=
  { uid := "u1", displayName := some "Ann", email := none, photoURL := none }

/-- A backend on which every call succeeds. -/
def envUp : Env :=
  { dbReady := true, fetchNet := fun _ => Net.ok, updateRead := none, updateWrite := none,
    now := 0 }

/-- A backend whose every fetch fails with the store code `unavailable`. -/
def envDown : Env :=
  { envUp with fetchNet := fun _ => Net.fails { code := some "unavailable", message := "offline" } }

/-- A backend whose every fetch fails with the store code `permission-denied`. -/
def envDenied : Env :=
  { envUp with
    fetchNet := fun _ => Net.fails { code := some "permission-denied", message := "denied" } }

/-- A backend whose first two fetches fail and whose later fetches succeed. -/
def envFlaky : Env :=
  { envUp with
    fetchNet := fun k =>
      if k < 2 then Net.fails { code := some "unavailable", message := "offline" } else Net.ok }

/-- A stored record of `u1`. -/
def bobDoc : Doc :=
  [("name", JsVal.str "Bob"), ("email", JsVal.str "bob@x.com"), ("phonenum", JsVal.str "555"),
   ("address", JsVal.str "1 Main St"), ("pincode", JsVal.str "12345"),
   ("dob", JsVal.str "2000-01-01"), ("isAdmin", JsVal.bool false),
   ("createdAt", JsVal.time 7), ("updatedAt", JsVal.time 7)]

/-- A stored record of `u1` whose name is the empty string. -/
def blankNameDoc : Doc :=
  [("name", JsVal.str ""), ("email", JsVal.str "bob@x.com"), ("phonenum", JsVal.str "555"),
   ("address", JsVal.str ""), ("pincode", JsVal.str ""), ("dob", JsVal.str ""),
   ("isAdmin", JsVal.bool false), ("createdAt", JsVal.time 7), ("updatedAt", JsVal.time 7)]

/-- The collection that holds `bobDoc` for `u1` and nothing else. -/
def bobStore : Firestore := Firestore.empty.setDoc "u1" bobDoc

/-- The collection that holds `blankNameDoc` for `u1` and nothing else. -/
def blankNameStore : Firestore := Firestore.empty.setDoc "u1" blankNameDoc

/-- A store error that carries the message of the timeout promise. -/
def lookalikeError : JsError :=
  { code := some "permission-denied", message := "Database request timeout" }

/-! ## `userService.js`: `checkUserIsAdmin` -/

/-- The function `checkUserIsAdmin(uid)`: `fs` is the collection and `readFault`
the error thrown inside the `try` block (by `getDoc`), if any.  The result is the
value returned, or the error thrown. -/
def checkUserIsAdmin (fs : Firestore) (readFault : Option JsError) (uid : String) :
    Except JsError Bool :=
  if uid = "" then
    Except.ok false
  else
    let tried : Except JsError Bool :=
      match readFault with
      | some e => Except.error e
      | none =>
        match fs uid with
        | some userData => Except.ok (decide (userData.get "isAdmin" = JsVal.bool true))
        | none => Except.ok false
    match tried with
    | Except.ok b => Except.ok b
    | Except.error _ => Except.ok false

/-! ## `Profile.jsx`: the form handlers -/

/-- The `length` of a JavaScript string: its number of UTF-16 code units, two for
a character outside the basic plane. -/
def jsLength (s : String) : Nat :=
  (s.data.map (fun c => if c.toNat < 65536 then 1 else 2)).sum

/-- The `passwordData` state. -/
structure PasswordData where
  current : String
  new : String
  confirm : String
  deriving DecidableEq, Repr

/-- A call to the identity provider (Firebase Auth) made by a form handler. -/
inductive AuthCall where
  | updateProfile (displayName : JsVal)
  | reauthenticate (email : Option String) (password : String)
  | updatePassword (password : String)
  deriving DecidableEq, Repr

/-- What one run of a form handler meets outside the component: the truthiness
of `db`, the clock, and the error each remote call rejects with, if any
(`updateProfile`, `reauthenticateWithCredential`, `updatePassword`, and the read
and the write inside `updateUserData`). -/
structure FormEnv where
  dbReady : Bool
  now : Nat
  updateProfileFault : Option JsError
  reauthFault : Option JsError
  updatePasswordFault : Option JsError
  updateRead : Option JsError
  updateWrite : Option JsError

/-- The state the form handlers act on: the component state they read and set,
the collection, and the logs of their calls to the identity provider and to
`updateUserData`. -/
structure FormState where
  profileData : Doc
  formData : Doc
  passwordData : PasswordData
  successMessage : String
  errorMessage : String
  loading : Bool
  store : Firestore
  authCalls : List AuthCall
  updates : List (String × Doc)

/-- The object literal `handleProfileUpdate` hands to `updateUserData`. -/
def profileUpdatePayload (formData : Doc) : Doc :=
  [("name", formData.get "name"), ("phonenum", formData.get "phonenum"),
   ("address", formData.get "address"), ("pincode", formData.get "pincode"),
   ("dob", formData.get "dob")]

/-- The `try` block of `handleProfileUpdate`: the state afterwards, and the error
thrown, if any. -/
def profileUpdateTry (env : FormEnv) (currentUser : Option User) (s : FormState) :
    FormState × Option JsError :=
  match currentUser with
  | none => (s, some (JsError.new "You must be logged in to update your profile"))
  | some u =>
    if u.uid = "" then
      (s, some (JsError.new "You must be logged in to update your profile"))
    else
      let renamed : FormState × Option JsError :=
        if s.formData.get "name" ≠ JsVal.ofNullable u.displayName then
          ({ s with authCalls := s.authCalls ++
              [AuthCall.updateProfile (s.formData.get "name")] }, env.updateProfileFault)
        else (s, none)
      match renamed with
      | (s1, some e) => (s1, some e)
      | (s1, none) =>
        let s2 : FormState :=
          { s1 with updates := s1.updates ++ [(u.uid, profileUpdatePayload s.formData)] }
        match updateUserData env.dbReady env.now env.updateRead env.updateWrite s2.store u.uid
            (profileUpdatePayload s.formData) with
        | (Except.error e, fs1) => ({ s2 with store := fs1 }, some e)
        | (Except.ok _, fs1) =>
          ({ s2 with store := fs1, profileData := Doc.merge s2.profileData s.formData,
                     successMessage := "Profile updated successfully" }, none)

/-- The handler `handleProfileUpdate`.  The timer that clears the success message
after 3 seconds is left out. -/
def handleProfileUpdate (env : FormEnv) (currentUser : Option User) (s : FormState) :
    FormState :=
  let s0 : FormState := { s with loading := true, successMessage := "", errorMessage := "" }
  match profileUpdateTry env currentUser s0 with
  | (s1, none) => { s1 with loading := false }
  | (s1, some error) =>
    { s1 with
      errorMessage := if error.message ≠ "" then error.message else "Failed to update profile",
      loading := false }

/-- The message the `catch` block of `handlePasswordUpdate` sets for the error
caught. -/
def passwordErrorMessage (error : JsError) : String :=
  if error.code = some "auth/requires-recent-login" then
    "For security reasons, please log in again before changing your password"
  else if error.code = some "auth/wrong-password" then
    "Current password is incorrect"
  else if error.message ≠ "" then error.message
  else "Failed to update password"

/-- The `try` block of `handlePasswordUpdate`: the state afterwards, and the
error thrown, if any. -/
def passwordUpdateTry (env : FormEnv) (currentUser : Option User) (s : FormState) :
    FormState × Option JsError :=
  match currentUser with
  | none => (s, some (JsError.new "You must be logged in to update password"))
  | some u =>
    let s1 : FormState :=
      { s with authCalls := s.authCalls ++
          [AuthCall.reauthenticate u.email s.passwordData.current] }
    match env.reauthFault with
    | some e => (s1, some e)
    | none =>
      let s2 : FormState :=
        { s1 with authCalls := s1.authCalls ++ [AuthCall.updatePassword s.passwordData.new] }
      match env.updatePasswordFault with
      | some e => (s2, some e)
      | none =>
        ({ s2 with successMessage := "Password updated successfully",
                   passwordData := { current := "", new := "", confirm := "" } }, none)

/-- The handler `handlePasswordUpdate`.  The timer that clears the success
message after 3 seconds is left out. -/
def handlePasswordUpdate (env : FormEnv) (currentUser : Option User) (s : FormState) :
    FormState :=
  let s0 : FormState := { s with loading := true, successMessage := "", errorMessage := "" }
  if s.passwordData.new ≠ s.passwordData.confirm then
    { s0 with errorMessage := "New password and confirm password do not match",
              loading := false }
  else if jsLength s.passwordData.new < 6 then
    { s0 with errorMessage := "Password must be at least 6 characters", loading := false }
  else
    match passwordUpdateTry env currentUser s0 with
    | (s1, none) => { s1 with loading := false }
    | (s1, some error) =>
      { s1 with errorMessage := passwordErrorMessage error, loading := false }

/-- What the `Change Password` tab of `ProfilePage` shows. -/
inductive PasswordPanel where
  | googleNotice
  | passwordForm
  deriving DecidableEq, Repr

/-- The test `currentUser?.providerData?.[0]?.providerId === 'google.com'` of the
`Change Password` tab, and the branch it selects. -/
def passwordPanel (currentUser : Option User) : PasswordPanel :=
  if (currentUser.bind (fun u => u.providerData.head?)) = some "google.com" then
    PasswordPanel.googleNotice
  else PasswordPanel.passwordForm

/-- A submit on the `Change Password` tab: only the form carries
`onSubmit={handlePasswordUpdate}`; the Google notice has nothing to submit. -/
def submitPasswordTab (env : FormEnv) (currentUser : Option User) (s : FormState) :
    FormState :=
  match passwordPanel currentUser with
  | PasswordPanel.googleNotice => s
  | PasswordPanel.passwordForm => handlePasswordUpdate env currentUser s

/-- The loop variables and the log a run of the retry loop has reached. -/
def LoopRun.state : LoopRun → LoopState
  | LoopRun.done s => s
  | LoopRun.threw s _ => s
  | LoopRun.running s => s

/-- The state of a run of `fetchUserData`, returned or still pending. -/
def Run.state : Run → State
  | Run.returned s => s
  | Run.pending s _ => s

/-- The message of a failed password change, as the specification words it. -/
def specPasswordMessage (code : Option String) (message : String) : String :=
  if code = some "auth/requires-recent-login" then
    "For security reasons, please log in again before changing your password"
  else if code = some "auth/wrong-password" then "Current password is incorrect"
  else if message = "" then "Failed to update password"
  else message

/-! ## Scenarios for the form handlers -/

/-- A backend on which every call of a form handler succeeds. -/
def formEnvUp : FormEnv :=
  { dbReady := true, now := 9, updateProfileFault := none, reauthFault := none,
    updatePasswordFault := none, updateRead := none, updateWrite := none }

/-- An identity provider that rejects the re-authentication. -/
def formEnvWrongPassword : FormEnv :=
  { formEnvUp with
    reauthFault := some { code := some "auth/wrong-password", message := "wrong" } }

/-- The form state at mount over the collection `fs`, with the password form
filled in as given. -/
def FormState.initial (fs : Firestore) (pd : PasswordData) : FormState :=
  { profileData := initialProfileData,
    formData := [("name", JsVal.str "Ann"), ("email", JsVal.str "ann@x.com"),
      ("phonenum", JsVal.str "777"), ("address", JsVal.str "2 Side St"),
      ("pincode", JsVal.str "54321"), ("dob", JsVal.str "1999-09-09")],
    passwordData := pd, successMessage := "", errorMessage := "", loading := false,
    store := fs, authCalls := [], updates := [] }

/-- An identity signed in through a federated provider other than Google. -/
def annFacebook : User := { ann with providerData := ["facebook.com"] }

/-- An identity signed in through Google. -/
def annGoogle : User := { ann with providerData := ["google.com"] }

/-- A payload that names `email`, `isAdmin` and `updatedAt`. -/
def escalationPayload : Doc :=
  [("email", JsVal.str "eve@x.com"), ("isAdmin", JsVal.bool true),
   ("updatedAt", JsVal.time 1)]

/-! ## `userService.js`: `saveUserData`, and `googleLogin` of `AuthContext.jsx` -/

/-- The object literal `saveUserData` hands to `setDoc`; `now` is the value of
`new Date()`. -/
def savedRecord (now : Nat) (userData : Doc) : Doc :=
  [("name", (userData.get "name").or (JsVal.str "")),
   ("email", (userData.get "email").or (JsVal.str "")),
   ("phonenum", (userData.get "phonenum").or (JsVal.str "")),
   ("address", (userData.get "address").or (JsVal.str "")),
   ("pincode", (userData.get "pincode").or (JsVal.str "")),
   ("dob", (userData.get "dob").or (JsVal.str "")),
   ("isAdmin", (userData.get "isAdmin").or (JsVal.bool false)),
   ("createdAt", JsVal.time now), ("updatedAt", JsVal.time now)]

/-- The function `saveUserData(uid, userData)`: `fault` is the error thrown inside
the `try` block (by `doc` or `setDoc`), if any, which the `catch` block throws
again.  The result is the value returned or the error thrown, with the collection
afterwards. -/
def saveUserData (now : Nat) (fault : Option JsError) (fs : Firestore) (uid : String)
    (userData : Doc) : Except JsError Bool × Firestore :=
  match fault with
  | some error => (Except.error error, fs)
  | none => (Except.ok true, fs.setDoc uid (savedRecord now userData))

/-- What `signInWithPopup` resolves with, as far as `googleLogin` reads it:
`result.user` and `result._tokenResponse.isNewUser`. -/
structure SignInResult where
  user : User
  isNewUser : JsVal

/-- The state `googleLogin` acts on: the `error` state of `AuthProvider`, the
collection, and the log of its `saveUserData` calls. -/
structure AuthState where
  error : String
  store : Firestore
  saveCalls : List (String × Doc)

/-- The object literal `googleLogin` hands to `saveUserData`. -/
def googlePayload (user : User) : Doc :=
  [("name", (JsVal.ofNullable user.displayName).or (JsVal.str "")),
   ("email", (JsVal.ofNullable user.email).or (JsVal.str "")),
   ("phonenum", JsVal.str ""), ("address", JsVal.str ""),
   ("pincode", JsVal.str ""), ("dob", JsVal.str ""),
   ("profilePic", (JsVal.ofNullable user.photoURL).or (JsVal.str ""))]

/-- The function `googleLogin`: `popup` is what `signInWithPopup` settles with,
`saveFault` the error `saveUserData` meets, if any.  The result is the user
returned or the error thrown, with the state afterwards. -/
def googleLogin (now : Nat) (popup : Except JsError SignInResult) (saveFault : Option JsError)
    (s : AuthState) : Except JsError User × AuthState :=
  let s0 : AuthState := { s with error := "" }
  match popup with
  | Except.error err => (Except.error err, { s0 with error := err.message })
  | Except.ok result =>
    if result.isNewUser.truthy then
      let s1 : AuthState :=
        { s0 with saveCalls := s0.saveCalls ++ [(result.user.uid, googlePayload result.user)] }
      match saveUserData now saveFault s1.store result.user.uid (googlePayload result.user) with
      | (Except.error err, fs1) =>
        (Except.error err, { s1 with store := fs1, error := err.message })
      | (Except.ok _, fs1) => (Except.ok result.user, { s1 with store := fs1 })
    else
      (Except.ok result.user, s0)

/-- A Google identity with a profile picture. -/
def gina : User :=
  { uid := "g1", displayName := some "Gina", email := some "gina@x.com",
    photoURL := some "https://pics.example/gina.png", providerData := ["google.com"] }

/-- The first Google sign-in of `gina`. -/
def ginaFirstSignIn : SignInResult := { user := gina, isNewUser := JsVal.bool true }

/-- The state of the auth context over an empty collection. -/
def AuthState.initial : AuthState := { error := "", store := Firestore.empty, saveCalls := [] }

/-! ## Lemmas on values, logs and the retry loop -/

/-- The count `fetchCount` distributes over the concatenation of logs. -/
@[simp]
theorem fetchCount_append (a b : List Event) :
    fetchCount (a ++ b) = fetchCount a + fetchCount b := by
  simp [fetchCount]

/-- The list `waits` distributes over the concatenation of logs. -/
@[simp]
theorem waits_append (a b : List Event) : waits (a ++ b) = waits a ++ waits b := by
  simp [waits]

/-- The list `updateCalls` distributes over the concatenation of logs. -/
@[simp]
theorem updateCalls_append (a b : List Event) :
    updateCalls (a ++ b) = updateCalls a ++ updateCalls b := by
  simp [updateCalls]

/-- With a usable uid and `db`, a fetch the store answers returns what the store holds. -/
theorem getUserData_found (fs : Firestore) (uid : String) (huid : uid ≠ "") :
    getUserData true fs Net.ok uid = Except.ok (fs uid) := by
  simp [getUserData, huid]

/-- While every fetch reports not-found the loop keeps running: one fetch per
iteration, no call of `updateUserData`, and `retryCount` stays at most 2. -/
theorem retryLoop_notFound_running (env : Env) (fs : Firestore) (uid : String)
    (huid : uid ≠ "") (hdb : env.dbReady = true) (hnet : ∀ k, env.fetchNet k = Net.ok)
    (hfs : fs uid = none) :
    ∀ (fuel : Nat) (s : LoopState), s.userData = none → s.retryCount ≤ 2 →
      ∃ s1, retryLoop env fs uid fuel s = LoopRun.running s1 ∧ s1.userData = none ∧
        s1.retryCount ≤ 2 ∧ fetchCount s1.log = fetchCount s.log + fuel ∧
        updateCalls s1.log = updateCalls s.log := by
  intro fuel
  induction fuel with
  | zero =>
    intro s hu hr
    refine ⟨s, ?_, hu, hr, by simp, rfl⟩
    have : s.retryCount < 3 := by omega
    simp [retryLoop, loopCond, maxRetries, hu, this]
  | succ n ih =>
    intro s hu hr
    have h3 : s.retryCount < 3 := by omega
    have hbody : getUserData env.dbReady fs (env.fetchNet s.fetches) uid = Except.ok none := by
      rw [hdb, hnet, getUserData_found fs uid huid, hfs]
    by_cases h2 : s.retryCount < 2
    · obtain ⟨s1, h1, hu1, hr1, hc1, hup1⟩ := ih
        { userData := none, retryCount := s.retryCount + 1, fetches := s.fetches + 1,
          log := s.log ++ [Event.getUserData uid, Event.wait (1000 * 2 ^ s.retryCount)] }
        rfl (by simp; omega)
      refine ⟨s1, ?_, hu1, hr1, ?_, ?_⟩
      · simp [retryLoop, loopCond, loopBody, maxRetries, hu, h3, h2, hbody, h1]
      · rw [hc1]; simp [fetchCount]; omega
      · rw [hup1]; simp [updateCalls]
    · obtain ⟨s1, h1, hu1, hr1, hc1, hup1⟩ := ih
        { userData := none, retryCount := s.retryCount, fetches := s.fetches + 1,
          log := s.log ++ [Event.getUserData uid] }
        rfl hr
      refine ⟨s1, ?_, hu1, hr1, ?_, ?_⟩
      · simp [retryLoop, loopCond, loopBody, maxRetries, hu, h3, h2, hbody, h1]
      · rw [hc1]; simp [fetchCount]; omega
      · rw [hup1]; simp [updateCalls]

/-- A loop whose condition is false ends at once, whatever the fuel. -/
theorem retryLoop_exit (env : Env) (fs : Firestore) (uid : String) (fuel : Nat) (s : LoopState)
    (h : loopCond s = false) : retryLoop env fs uid fuel s = LoopRun.done s := by
  cases fuel <;> simp [retryLoop, h]

/-- Three failing fetches in a row: the loop re-throws the third error after
three calls and two waits. -/
theorem retryLoop_three_errors (env : Env) (fs : Firestore) (uid : String) (log : List Event)
    (e0 e1 e2 : JsError)
    (h0 : getUserData env.dbReady fs (env.fetchNet 0) uid = Except.error e0)
    (h1 : getUserData env.dbReady fs (env.fetchNet 1) uid = Except.error e1)
    (h2 : getUserData env.dbReady fs (env.fetchNet 2) uid = Except.error e2)
    (fuel : Nat) (hf : 3 ≤ fuel) :
    retryLoop env fs uid fuel { userData := none, retryCount := 0, fetches := 0, log := log } =
      LoopRun.threw
        { userData := none, retryCount := 2, fetches := 3,
          log := log ++ [Event.getUserData uid, Event.wait 2000, Event.getUserData uid,
                         Event.wait 4000, Event.getUserData uid] } e2 := by
  obtain ⟨n, rfl⟩ : ∃ n, fuel = n + 3 := ⟨fuel - 3, by omega⟩
  simp [retryLoop, loopCond, loopBody, maxRetries, h0, h1, h2]

/-- Two failing fetches and a third that finds the record: the loop ends with
the record after three calls and two waits. -/
theorem retryLoop_two_errors_found (env : Env) (fs : Firestore) (uid : String)
    (log : List Event) (e0 e1 : JsError) (d : Doc)
    (h0 : getUserData env.dbReady fs (env.fetchNet 0) uid = Except.error e0)
    (h1 : getUserData env.dbReady fs (env.fetchNet 1) uid = Except.error e1)
    (h2 : getUserData env.dbReady fs (env.fetchNet 2) uid = Except.ok (some d))
    (fuel : Nat) (hf : 3 ≤ fuel) :
    retryLoop env fs uid fuel { userData := none, retryCount := 0, fetches := 0, log := log } =
      LoopRun.done
        { userData := some d, retryCount := 2, fetches := 3,
          log := log ++ [Event.getUserData uid, Event.wait 2000, Event.getUserData uid,
                         Event.wait 4000, Event.getUserData uid] } := by
  obtain ⟨n, rfl⟩ : ∃ n, fuel = n + 3 := ⟨fuel - 3, by omega⟩
  simp [retryLoop, loopCond, loopBody, maxRetries, h0, h1, h2]
  exact retryLoop_exit _ _ _ _ _ (by simp [loopCond])

/-- A first fetch that finds the record: the loop ends after one call. -/
theorem retryLoop_found_first (env : Env) (fs : Firestore) (uid : String)
    (log : List Event) (d : Doc)
    (h0 : getUserData env.dbReady fs (env.fetchNet 0) uid = Except.ok (some d))
    (fuel : Nat) (hf : 1 ≤ fuel) :
    retryLoop env fs uid fuel { userData := none, retryCount := 0, fetches := 0, log := log } =
      LoopRun.done
        { userData := some d, retryCount := 0, fetches := 1,
          log := log ++ [Event.getUserData uid] } := by
  obtain ⟨n, rfl⟩ : ∃ n, fuel = n + 1 := ⟨fuel - 1, by omega⟩
  simp [retryLoop, loopCond, loopBody, maxRetries, h0]
  exact retryLoop_exit _ _ _ _ _ (by simp [loopCond])

/-- The value of `x || ''` for a nullable string `x` is the string, or `''`. -/
theorem or_empty (o : Option String) :
    (JsVal.ofNullable o).or (JsVal.str "") = JsVal.str (o.getD "") := by
  cases o with
  | none => simp [JsVal.ofNullable, JsVal.or, JsVal.truthy]
  | some s =>
    by_cases h : s = "" <;> simp [JsVal.ofNullable, JsVal.or, JsVal.truthy, h]


/-- Truthiness of `a || b`. -/
theorem or_truthy (a b : JsVal) : (a.or b).truthy = (a.truthy || b.truthy) := by
  unfold JsVal.or
  cases h : a.truthy <;> simp [h]

/-- The value of `a || b` for a falsy `a`. -/
theorem or_of_falsy (a b : JsVal) (h : a.truthy = false) : a.or b = b := by
  simp [JsVal.or, h]

/-- The `catch` block of `getUserData` throws a plain error whose message is the
class message of the caught error. -/
theorem getUserDataCatch_eq (e : JsError) :
    getUserDataCatch e = JsError.new (classMessage (failureClass e.code e.message) e.message) := by
  unfold getUserDataCatch failureClass
  split_ifs <;> rfl

/-- Messages of different failure classes differ, whatever the original messages. -/
theorem classMessage_ne (c1 c2 : FailureClass) (m1 m2 : String) (h : c1 ≠ c2) :
    classMessage c1 m1 ≠ classMessage c2 m2 := by
  intro heq
  have hd := congrArg (fun s => s.data.head?) heq
  cases c1 <;> cases c2 <;> first
    | exact h rfl
    | (simp [classMessage] at hd)

/-! ## The claims -/

/-- C1 (code defect): for the identity `u1` (Ann) and an empty store on a healthy
backend, `fetchUserData` is still inside its retry loop after any number of
iterations, with `userData` null, one `getUserData` call per iteration and no
call of `updateUserData`: it never reaches the creation step, the profile keeps
its initial value and `fetchingData` stays true. -/
theorem fetchUserData_no_record_pending (fuel : Nat) :
    ∃ s1 l, fetchUserData envUp (some ann) fuel (State.initial Firestore.empty) =
        Run.pending s1 l ∧
      l.userData = none ∧ updateCalls s1.log = [] ∧ fetchCount s1.log = fuel ∧
      s1.profileData = initialProfileData ∧ s1.fetchingData = true := by
  obtain ⟨l, h, hu, _, hc, hup⟩ :=
    retryLoop_notFound_running envUp Firestore.empty "u1" (by decide) rfl (fun _ => rfl) rfl
      fuel { userData := none, retryCount := 0, fetches := 0, log := [] } rfl (by simp)
  refine ⟨_, l, by simp [fetchUserData, ann, State.initial, h]; rfl, hu, ?_, ?_, rfl, rfl⟩
  · simpa [updateCalls] using hup
  · simpa [fetchCount] using hc

/-- C2 (code defect): for a store that reports not-found on every fetch, the
retry loop is still running after any number `fuel` of iterations and has then
made `fuel` calls of `getUserData`, so more than 3 for `fuel > 3`; `retryCount`
stays below `maxRetries`, which keeps the loop condition true. -/
theorem retryLoop_no_record_unbounded (fuel : Nat) :
    ∃ l, retryLoop envUp Firestore.empty "u1" fuel
        { userData := none, retryCount := 0, fetches := 0, log := [] } = LoopRun.running l ∧
      fetchCount l.log = fuel ∧ l.retryCount < maxRetries := by
  obtain ⟨l, h, _, hr, hc, _⟩ :=
    retryLoop_notFound_running envUp Firestore.empty "u1" (by decide) rfl (fun _ => rfl) rfl
      fuel { userData := none, retryCount := 0, fetches := 0, log := [] } rfl (by simp)
  refine ⟨l, h, ?_, ?_⟩
  · simpa [fetchCount] using hc
  · simp [maxRetries]; omega

/-- C3 (code defect): when `getUserData` throws on the first two calls and returns
the record `d` on the third, `fetchUserData` returns with the profile built from
`d` after exactly 3 calls of `getUserData` and exactly two waits, but the waits
are 2000 ms and 4000 ms, not 1000 ms and 2000 ms: the `catch` path increments
`retryCount` before it computes the delay. -/
theorem fetchUserData_two_failures_waits (env : Env) (u : User) (s : State)
    (e0 e1 : JsError) (d : Doc) (fuel : Nat) (huid : u.uid ≠ "")
    (h0 : getUserData env.dbReady s.store (env.fetchNet 0) u.uid = Except.error e0)
    (h1 : getUserData env.dbReady s.store (env.fetchNet 1) u.uid = Except.error e1)
    (h2 : getUserData env.dbReady s.store (env.fetchNet 2) u.uid = Except.ok (some d))
    (hf : 3 ≤ fuel) :
    ∃ s1, fetchUserData env (some u) fuel s = Run.returned s1 ∧
      s1.profileData = profileOf (some d) u ∧
      fetchCount s1.log = fetchCount s.log + 3 ∧
      waits s1.log = waits s.log ++ [2000, 4000] ∧
      updateCalls s1.log = updateCalls s.log := by
  have hloop := retryLoop_two_errors_found env s.store u.uid s.log e0 e1 d h0 h1 h2 fuel hf
  refine ⟨_, by simp [fetchUserData, huid, hloop, createIfMissing]; rfl, rfl, ?_, ?_, ?_⟩
  · simp [fetchCount]
  · simp [waits]
  · simp [updateCalls]

/-- Witness of C3: two `unavailable` failures, then the record of `u1`. -/
theorem fetchUserData_two_failures_waits_witness :
    ∃ s1, fetchUserData envFlaky (some ann) 3 (State.initial bobStore) = Run.returned s1 ∧
      s1.profileData = profileOf (some bobDoc) ann ∧
      fetchCount s1.log = fetchCount (State.initial bobStore).log + 3 ∧
      waits s1.log = waits (State.initial bobStore).log ++ [2000, 4000] ∧
      updateCalls s1.log = updateCalls (State.initial bobStore).log :=
  fetchUserData_two_failures_waits envFlaky ann (State.initial bobStore)
    (getUserDataCatch { code := some "unavailable", message := "offline" })
    (getUserDataCatch { code := some "unavailable", message := "offline" })
    bobDoc 3 (by decide) rfl rfl rfl (by decide)

/-- C4: for every identity with a non-empty uid and every store on which
`getUserData` throws on each of the 3 attempts, `fetchUserData` returns (no
exception escapes), the profile is the minimal record from the identity
(`name = displayName || ''`, `email = email || ''`, the four other fields empty,
no `createdAt`), the warning message is set and `fetchingData` is false. -/
theorem fetchUserData_exhausted_fallback (env : Env) (u : User) (s : State) (fuel : Nat)
    (huid : u.uid ≠ "")
    (hfail : ∀ k, k < 3 →
      ∃ e, getUserData env.dbReady s.store (env.fetchNet k) u.uid = Except.error e)
    (hf : 3 ≤ fuel) :
    ∃ s1, fetchUserData env (some u) fuel s = Run.returned s1 ∧
      s1.profileData.get "name" = JsVal.str (u.displayName.getD "") ∧
      s1.profileData.get "email" = JsVal.str (u.email.getD "") ∧
      s1.profileData.get "phonenum" = JsVal.str "" ∧
      s1.profileData.get "address" = JsVal.str "" ∧
      s1.profileData.get "pincode" = JsVal.str "" ∧
      s1.profileData.get "dob" = JsVal.str "" ∧
      s1.profileData.has "createdAt" = false ∧
      s1.errorMessage = loadFailedMessage ∧ s1.errorMessage ≠ "" ∧
      s1.fetchingData = false := by
  obtain ⟨e0, h0⟩ := hfail 0 (by omega)
  obtain ⟨e1, h1⟩ := hfail 1 (by omega)
  obtain ⟨e2, h2⟩ := hfail 2 (by omega)
  have hloop := retryLoop_three_errors env s.store u.uid s.log e0 e1 e2 h0 h1 h2 fuel hf
  have hrun : fetchUserData env (some u) fuel s = Run.returned
      { s with profileData := fallbackProfile u, errorMessage := loadFailedMessage,
               fetchingData := false,
               log := s.log ++ [Event.getUserData u.uid, Event.wait 2000, Event.getUserData u.uid,
                                Event.wait 4000, Event.getUserData u.uid] } := by
    simp [fetchUserData, huid, hloop]
  have hmsg : loadFailedMessage ≠ "" := by decide
  refine ⟨_, hrun, ?_, ?_, rfl, rfl, rfl, rfl, rfl, rfl, hmsg, rfl⟩
  · simp [fallbackProfile, Doc.get, List.lookup, or_empty]
  · simp [fallbackProfile, Doc.get, List.lookup, or_empty]

/-- Witness of C4: the identity `u1` on a backend that is unavailable. -/
theorem fetchUserData_exhausted_fallback_witness :
    ∃ s1, fetchUserData envDown (some ann) 3 (State.initial Firestore.empty) = Run.returned s1 ∧
      s1.profileData.get "name" = JsVal.str "Ann" ∧
      s1.profileData.get "email" = JsVal.str "ann@x.com" ∧
      s1.profileData.get "phonenum" = JsVal.str "" ∧
      s1.profileData.get "address" = JsVal.str "" ∧
      s1.profileData.get "pincode" = JsVal.str "" ∧
      s1.profileData.get "dob" = JsVal.str "" ∧
      s1.profileData.has "createdAt" = false ∧
      s1.errorMessage = loadFailedMessage ∧ s1.errorMessage ≠ "" ∧
      s1.fetchingData = false :=
  fetchUserData_exhausted_fallback envDown ann (State.initial Firestore.empty) 3 (by decide)
    (fun _ _ => ⟨_, rfl⟩) (by decide)

/-- Counterexample to C5: for the logged-in identity `u1` without an email, on a
backend whose every fetch fails, `fetchUserData` returns and the render decision
is the blocking screen `Profile Data Unavailable`. -/
theorem render_unavailable_without_email :
    ∃ s1, fetchUserData envDown (some annNoEmail) 3 (State.initial Firestore.empty) =
        Run.returned s1 ∧
      render (isLoggedIn (some annNoEmail)) false s1 = View.unavailable :=
  ⟨_, rfl, by decide⟩

/-- C5, amended: for every logged-in identity with a non-empty uid and a non-empty
email, and every store behaviour, once `fetchUserData` has returned (and no form
submission is loading) the render decision is the profile page. -/
theorem render_profilePage_of_identity_email (env : Env) (u : User) (fuel : Nat)
    (s s1 : State) (mail : String) (huid : u.uid ≠ "") (hmail : u.email = some mail)
    (hne : mail ≠ "") (hrun : fetchUserData env (some u) fuel s = Run.returned s1) :
    render (isLoggedIn (some u)) false s1 = View.profilePage := by
  have hm : ((JsVal.ofNullable u.email).truthy) = true := by
    simp [hmail, JsVal.ofNullable, JsVal.truthy, hne]
  have hfb : ((fallbackProfile u).get "email").truthy = true := by
    simp [fallbackProfile, Doc.get, List.lookup, or_truthy, hm]
  have hpr : ∀ userData, ((profileOf userData u).get "email").truthy = true := by
    intro userData
    simp [profileOf, Doc.get, List.lookup, or_truthy, hm]
  simp only [fetchUserData, huid, if_false] at hrun
  split at hrun
  · cases hrun
  · cases hrun
    simp [render, isLoggedIn, hfb]
  · cases hrun
    simp [render, isLoggedIn, hpr]

/-- Witness of C5, amended: the identity `u1` on a backend that is unavailable. -/
theorem render_profilePage_of_identity_email_witness :
    render (isLoggedIn (some ann)) false
      { State.initial Firestore.empty with
        profileData := fallbackProfile ann, errorMessage := loadFailedMessage,
        fetchingData := false,
        log := [Event.getUserData "u1", Event.wait 2000, Event.getUserData "u1",
                Event.wait 4000, Event.getUserData "u1"] } = View.profilePage :=
  render_profilePage_of_identity_email envDown ann 3 (State.initial Firestore.empty) _
    "ann@x.com" (by decide) rfl (by decide) rfl

/-- Counterexample to C6: the stored record of `u1` has the empty string as name,
the first fetch returns it, and the resulting profile has the name `Ann` of the
identity instead. -/
theorem fetchUserData_blank_name_replaced :
    ∃ s1, fetchUserData envUp (some ann) 1 (State.initial blankNameStore) = Run.returned s1 ∧
      blankNameStore ann.uid = some blankNameDoc ∧
      blankNameDoc.get "name" = JsVal.str "" ∧
      s1.profileData.get "name" = JsVal.str "Ann" :=
  ⟨_, rfl, rfl, rfl, rfl⟩

/-- C6, amended: when the first fetch returns the stored record `d`,
`fetchUserData` returns after that one call, with no wait, no `updateUserData`
call and the store untouched; each of the six string fields of the profile equals
the stored value when that value is truthy; a falsy stored name or email is
replaced by the identity's `displayName` or `email` (or `''`), a falsy stored
phone, address, postal code or date of birth by `''`; `createdAt` is the stored
one. -/
theorem fetchUserData_existing_record (env : Env) (u : User) (s : State) (d : Doc)
    (fuel : Nat) (huid : u.uid ≠ "")
    (h0 : getUserData env.dbReady s.store (env.fetchNet 0) u.uid = Except.ok (some d))
    (hf : 1 ≤ fuel) :
    ∃ s1, fetchUserData env (some u) fuel s = Run.returned s1 ∧
      (∀ k ∈ ["name", "email", "phonenum", "address", "pincode", "dob"],
        (d.get k).truthy = true → s1.profileData.get k = d.get k) ∧
      ((d.get "name").truthy = false →
        s1.profileData.get "name" = JsVal.str (u.displayName.getD "")) ∧
      ((d.get "email").truthy = false →
        s1.profileData.get "email" = JsVal.str (u.email.getD "")) ∧
      (∀ k ∈ ["phonenum", "address", "pincode", "dob"],
        (d.get k).truthy = false → s1.profileData.get k = JsVal.str "") ∧
      s1.profileData.get "createdAt" = d.get "createdAt" ∧
      updateCalls s1.log = updateCalls s.log ∧
      fetchCount s1.log = fetchCount s.log + 1 ∧
      waits s1.log = waits s.log ∧
      s1.store = s.store := by
  have hloop := retryLoop_found_first env s.store u.uid s.log d h0 fuel hf
  have hrun : fetchUserData env (some u) fuel s = Run.returned
      { profileData := profileOf (some d) u, errorMessage := "", fetchingData := false,
        store := s.store, log := s.log ++ [Event.getUserData u.uid] } := by
    simp [fetchUserData, huid, hloop, createIfMissing]
  refine ⟨_, hrun, ?_, ?_, ?_, ?_, rfl, ?_, ?_, ?_, rfl⟩
  · intro k hk ht
    simp only [List.mem_cons, List.mem_singleton, List.not_mem_nil, or_false] at hk
    rcases hk with rfl | rfl | rfl | rfl | rfl | rfl <;>
      simp [profileOf, Doc.get, List.lookup, optGet, JsVal.or, ht] <;>
      simp [Doc.get] at ht <;> simp [ht]
  · intro hfalse
    simp only [Doc.get] at hfalse
    simp [profileOf, Doc.get, List.lookup, optGet, or_of_falsy _ _ hfalse, or_empty]
  · intro hfalse
    simp only [Doc.get] at hfalse
    simp [profileOf, Doc.get, List.lookup, optGet, or_of_falsy _ _ hfalse, or_empty]
  · intro k hk hfalse
    simp only [List.mem_cons, List.mem_singleton, List.not_mem_nil, or_false] at hk
    simp only [Doc.get] at hfalse
    rcases hk with rfl | rfl | rfl | rfl <;>
      simp [profileOf, Doc.get, List.lookup, optGet, or_of_falsy _ _ hfalse]
  · simp [updateCalls]
  · simp [fetchCount]
  · simp [waits]

/-- Witness of C6, amended: the identity `u1` with the stored record `bobDoc`. -/
theorem fetchUserData_existing_record_witness :
    ∃ s1, fetchUserData envUp (some ann) 1 (State.initial bobStore) = Run.returned s1 ∧
      (∀ k ∈ ["name", "email", "phonenum", "address", "pincode", "dob"],
        (bobDoc.get k).truthy = true → s1.profileData.get k = bobDoc.get k) ∧
      ((bobDoc.get "name").truthy = false →
        s1.profileData.get "name" = JsVal.str (ann.displayName.getD "")) ∧
      ((bobDoc.get "email").truthy = false →
        s1.profileData.get "email" = JsVal.str (ann.email.getD "")) ∧
      (∀ k ∈ ["phonenum", "address", "pincode", "dob"],
        (bobDoc.get k).truthy = false → s1.profileData.get k = JsVal.str "") ∧
      s1.profileData.get "createdAt" = bobDoc.get "createdAt" ∧
      updateCalls s1.log = updateCalls (State.initial bobStore).log ∧
      fetchCount s1.log = fetchCount (State.initial bobStore).log + 1 ∧
      waits s1.log = waits (State.initial bobStore).log ∧
      s1.store = (State.initial bobStore).store :=
  fetchUserData_existing_record envUp ann (State.initial bobStore) bobDoc 1 (by decide) rfl
    (by decide)

/-- C7: for every error `(code, message)` the store call rejects with,
`getUserData` throws a plain error whose message is the class message of the
claim's classification `failureClass`, the unknown class carrying
`Database error: ` and the original message; the expiry of the timer gives the
timeout message. -/
theorem getUserData_classification (fs : Firestore) (uid : String) (e : JsError)
    (huid : uid ≠ "") :
    getUserData true fs (Net.fails e) uid =
        Except.error (JsError.new (classMessage (failureClass e.code e.message) e.message)) ∧
      getUserData true fs Net.slow uid =
        Except.error (JsError.new (classMessage FailureClass.timeout "")) := by
  constructor
  · simp [getUserData, huid, getUserDataCatch_eq]
  · simp [getUserData, huid, getUserDataCatch_eq, timeoutError, JsError.new, failureClass,
      classMessage]

/-- Witness of C7: an error with an unknown code, and the timer. -/
theorem getUserData_classification_witness :
    getUserData true Firestore.empty
        (Net.fails { code := some "weird-code", message := "boom" }) "u1" =
        Except.error (JsError.new "Database error: boom") ∧
      getUserData true Firestore.empty Net.slow "u1" =
        Except.error (JsError.new
          "Connection to database timed out. Please check your internet connection and try again.") :=
  getUserData_classification Firestore.empty "u1" { code := some "weird-code", message := "boom" }
    (by decide)

/-- C8: two errors that fall in different failure classes get different messages
from `getUserData`, whatever their original messages. -/
theorem getUserData_messages_distinct (e1 e2 : JsError)
    (h : failureClass e1.code e1.message ≠ failureClass e2.code e2.message) :
    (getUserDataCatch e1).message ≠ (getUserDataCatch e2).message := by
  rw [getUserDataCatch_eq, getUserDataCatch_eq]
  exact classMessage_ne _ _ _ _ h

/-- Witness of C8: a network error and an error without code. -/
theorem getUserData_messages_distinct_witness :
    (getUserDataCatch { code := some "unavailable", message := "offline" }).message ≠
      (getUserDataCatch { code := none, message := "offline" }).message :=
  getUserData_messages_distinct { code := some "unavailable", message := "offline" }
    { code := none, message := "offline" } (by decide)

/-- Counterexample to C9: a store error with code `permission-denied` whose message
is `Database request timeout` makes `getUserData` throw the timeout message,
exactly as the expiry of the timer does. -/
theorem getUserData_store_error_as_timeout :
    getUserData true Firestore.empty (Net.fails lookalikeError) "u1" =
        Except.error (JsError.new
          "Connection to database timed out. Please check your internet connection and try again.") ∧
      getUserData true Firestore.empty (Net.fails lookalikeError) "u1" =
        getUserData true Firestore.empty Net.slow "u1" :=
  ⟨rfl, rfl⟩

/-- C9, amended: a store error whose message is not `Database request timeout`
never makes `getUserData` throw the timeout message, whatever its code, while the
expiry of the timer does. -/
theorem getUserData_timeout_only_by_message (dbReady : Bool) (fs : Firestore) (uid : String)
    (e : JsError) (huid : uid ≠ "") (hmsg : e.message ≠ "Database request timeout") :
    getUserData dbReady fs (Net.fails e) uid ≠
        Except.error (JsError.new
          "Connection to database timed out. Please check your internet connection and try again.") ∧
      getUserData true fs Net.slow uid =
        Except.error (JsError.new
          "Connection to database timed out. Please check your internet connection and try again.") := by
  constructor
  · have hc : failureClass e.code e.message ≠ FailureClass.timeout := by
      unfold failureClass
      simp only [hmsg, if_false]
      split_ifs <;> simp
    have hne := classMessage_ne _ _ e.message "" hc
    cases dbReady with
    | false =>
      simp [getUserData, huid, JsError.new]
    | true =>
      simp only [getUserData, huid, if_false, getUserDataCatch_eq]
      intro heq
      injection heq with h1
      injection h1 with _ h2
      exact hne h2
  · simp [getUserData, huid, getUserDataCatch, timeoutError, JsError.new]

/-- Witness of C9, amended: a store error with the code `unavailable`. -/
theorem getUserData_timeout_only_by_message_witness :
    getUserData true Firestore.empty
        (Net.fails { code := some "unavailable", message := "offline" }) "u1" ≠
        Except.error (JsError.new
          "Connection to database timed out. Please check your internet connection and try again.") ∧
      getUserData true Firestore.empty Net.slow "u1" =
        Except.error (JsError.new
          "Connection to database timed out. Please check your internet connection and try again.") :=
  getUserData_timeout_only_by_message true Firestore.empty "u1"
    { code := some "unavailable", message := "offline" } (by decide) (by decide)

/-- Counterexample to C10: on a backend whose every fetch fails with
`permission-denied`, `fetchUserData` calls `getUserData` 3 times and waits
twice. -/
theorem fetchUserData_retries_permission_denied :
    ∃ s1, fetchUserData envDenied (some ann) 3 (State.initial Firestore.empty) =
        Run.returned s1 ∧
      fetchCount s1.log = 3 ∧ (waits s1.log).length = 2 :=
  ⟨_, rfl, by decide, by decide⟩

/-- C10, amended: `permission-denied` is retried like every other failure: when
the first three fetches fail with it, `fetchUserData` returns with the fallback
profile and the warning after exactly 3 calls of `getUserData` and 2 waits, and
without any `updateUserData` call. -/
theorem fetchUserData_permission_denied_three_calls (env : Env) (u : User) (s : State)
    (fuel : Nat) (huid : u.uid ≠ "") (hdb : env.dbReady = true)
    (hdenied : ∀ k, k < 3 →
      ∃ m, env.fetchNet k = Net.fails { code := some "permission-denied", message := m })
    (hf : 3 ≤ fuel) :
    ∃ s1, fetchUserData env (some u) fuel s = Run.returned s1 ∧
      fetchCount s1.log = fetchCount s.log + 3 ∧
      (waits s1.log).length = (waits s.log).length + 2 ∧
      updateCalls s1.log = updateCalls s.log ∧
      s1.profileData = fallbackProfile u ∧
      s1.errorMessage = loadFailedMessage := by
  obtain ⟨m0, h0⟩ := hdenied 0 (by omega)
  obtain ⟨m1, h1⟩ := hdenied 1 (by omega)
  obtain ⟨m2, h2⟩ := hdenied 2 (by omega)
  have hloop := retryLoop_three_errors env s.store u.uid s.log _ _ _
    (by rw [hdb, h0]; simp [getUserData, huid]; rfl)
    (by rw [hdb, h1]; simp [getUserData, huid]; rfl)
    (by rw [hdb, h2]; simp [getUserData, huid]; rfl) fuel hf
  have hrun : fetchUserData env (some u) fuel s = Run.returned
      { s with profileData := fallbackProfile u, errorMessage := loadFailedMessage,
               fetchingData := false,
               log := s.log ++ [Event.getUserData u.uid, Event.wait 2000, Event.getUserData u.uid,
                                Event.wait 4000, Event.getUserData u.uid] } := by
    simp [fetchUserData, huid, hloop]
  refine ⟨_, hrun, ?_, ?_, ?_, rfl, rfl⟩
  · simp [fetchCount]
  · simp [waits]
  · simp [updateCalls]

/-- Witness of C10, amended: the identity `u1` on the backend `envDenied`. -/
theorem fetchUserData_permission_denied_three_calls_witness :
    ∃ s1, fetchUserData envDenied (some ann) 3 (State.initial Firestore.empty) =
        Run.returned s1 ∧
      fetchCount s1.log = fetchCount (State.initial Firestore.empty).log + 3 ∧
      (waits s1.log).length = (waits (State.initial Firestore.empty).log).length + 2 ∧
      updateCalls s1.log = updateCalls (State.initial Firestore.empty).log ∧
      s1.profileData = fallbackProfile ann ∧
      s1.errorMessage = loadFailedMessage :=
  fetchUserData_permission_denied_three_calls envDenied ann (State.initial Firestore.empty) 3
    (by decide) rfl (fun _ _ => ⟨_, rfl⟩) (by decide)

/-! ## Lemmas on documents, `updateUserData` and the form handlers -/

/-- Lookup in a document whose entries under `k` are all replaced by `v`. -/
theorem lookup_replace (d : Doc) (k k1 : String) (v : JsVal) :
    List.lookup k1 (d.map (fun p => if p.1 == k then (p.1, v) else p)) =
      if k1 = k then (d.lookup k).map (fun _ => v) else d.lookup k1 := by
  induction d with
  | nil => simp
  | cons p d ih =>
    obtain ⟨a, b⟩ := p
    simp only [beq_iff_eq] at ih
    by_cases ha : a = k
    · subst ha
      by_cases hk : k1 = a
      · subst hk
        simp [List.lookup_cons]
      · have hb : (k1 == a) = false := by simpa using hk
        simp [List.lookup_cons, hk, hb, ih]
    · by_cases hk : k1 = k
      · subst hk
        have hb : (k1 == a) = false := by simpa using fun h => ha h.symm
        simp [List.lookup_cons, ha, hb, ih]
      · by_cases hka : k1 = a
        · subst hka
          simp [List.lookup_cons, ha, hk]
        · have hb : (k1 == a) = false := by simpa using hka
          simp [List.lookup_cons, ha, hb, hk, ih]

/-- The field `k` of `{ ...d, k: v }` holds `v`. -/
theorem lookup_set_self (d : Doc) (k : String) (v : JsVal) :
    (d.set k v).lookup k = some v := by
  unfold Doc.set Doc.has
  split
  · rename_i h
    rw [lookup_replace]
    cases hl : List.lookup k d with
    | none => simp [hl] at h
    | some x => simp
  · rename_i h
    cases hl : List.lookup k d with
    | none => simp [List.lookup_append, hl, List.lookup]
    | some x => simp [hl] at h

/-- The fields of `{ ...d, k: v }` other than `k` are those of `d`. -/
theorem lookup_set_ne (d : Doc) (k k1 : String) (v : JsVal) (hne : k1 ≠ k) :
    (d.set k v).lookup k1 = d.lookup k1 := by
  unfold Doc.set
  split
  · rw [lookup_replace]; simp [hne]
  · have : (k1 == k) = false := by simpa using hne
    simp [List.lookup_append, List.lookup, this]

/-- Reading the field `k` of `{ ...d, k: v }` gives `v`. -/
theorem get_set_self (d : Doc) (k : String) (v : JsVal) : (d.set k v).get k = v := by
  simp [Doc.get, lookup_set_self]

/-- A merge leaves every field alone that the merged fields do not name. -/
theorem lookup_merge_frame (e d : Doc) (k : String) (h : e.lookup k = none) :
    (Doc.merge d e).lookup k = d.lookup k := by
  unfold Doc.merge
  induction e generalizing d with
  | nil => rfl
  | cons p e ih =>
    obtain ⟨a, b⟩ := p
    by_cases hk : k = a
    · subst hk; simp [List.lookup_cons] at h
    · have hb : (k == a) = false := by simpa using hk
      simp only [List.lookup_cons, hb] at h
      simp only [List.foldl_cons]
      rw [ih _ h, lookup_set_ne _ _ _ _ hk]

/-- After a merge, a key that the merged fields all map to `v` and that either
occurs among them or already maps to `v` maps to `v`. -/
theorem lookup_merge_const (e d : Doc) (k : String) (v : JsVal)
    (hall : ∀ p ∈ e, p.1 = k → p.2 = v)
    (hex : d.lookup k = some v ∨ ∃ p ∈ e, p.1 = k) :
    (Doc.merge d e).lookup k = some v := by
  unfold Doc.merge
  induction e generalizing d with
  | nil =>
    rcases hex with h | ⟨p, hp, _⟩
    · simpa using h
    · simp at hp
  | cons p e ih =>
    obtain ⟨a, b⟩ := p
    simp only [List.foldl_cons]
    apply ih
    · intro q hq; exact hall q (List.mem_cons_of_mem _ hq)
    · by_cases hk : a = k
      · left
        have hb : b = v := hall (a, b) (List.mem_cons_self _ _) hk
        subst hk; subst hb
        exact lookup_set_self _ _ _
      · rcases hex with h | ⟨q, hq, hqk⟩
        · left; rw [lookup_set_ne _ _ _ _ (fun h => hk h.symm)]; exact h
        · right
          rcases List.mem_cons.1 hq with rfl | hq
          · exact absurd hqk hk
          · exact ⟨q, hq, hqk⟩

/-- Every entry of `d.set k v` under the key `k` holds `v`. -/
theorem set_all (d : Doc) (k : String) (v : JsVal) :
    ∀ p ∈ d.set k v, p.1 = k → p.2 = v := by
  intro p hp hk
  unfold Doc.set at hp
  split at hp
  · obtain ⟨q, _, hq⟩ := List.mem_map.1 hp
    by_cases hqk : q.1 = k
    · simp [hqk] at hq; rw [← hq]
    · simp [hqk] at hq; rw [← hq] at hk; exact absurd hk hqk
  · rename_i hhas
    rcases List.mem_append.1 hp with h | h
    · exfalso
      have : (List.lookup k d).isSome = true := by
        obtain ⟨a, b⟩ := p
        simp only at hk; subst hk
        clear hp hhas
        induction d with
        | nil => simp at h
        | cons r d ih =>
          obtain ⟨a1, b1⟩ := r
          by_cases e1 : a = a1
          · subst e1; simp [List.lookup_cons]
          · have hb : (a == a1) = false := by simpa using e1
            rcases List.mem_cons.1 h with h1 | h1
            · simp at h1; exact absurd h1.1 e1
            · simp [List.lookup_cons, hb, ih h1]
      exact hhas this
    · simp at h; rw [h]

/-- A field found by lookup is an entry of the document. -/
theorem mem_of_lookup (d : Doc) (k : String) (v : JsVal) (h : d.lookup k = some v) :
    (k, v) ∈ d := by
  induction d with
  | nil => simp at h
  | cons p d ih =>
    obtain ⟨a, b⟩ := p
    by_cases hk : k = a
    · subst hk
      simp [List.lookup_cons] at h
      simp [h]
    · have hb : (k == a) = false := by simpa using hk
      simp only [List.lookup_cons, hb] at h
      exact List.mem_cons_of_mem _ (ih h)

/-- With distinct keys, every entry of a document is found by lookup. -/
theorem lookup_of_mem_nodup (d : Doc) (k : String) (v : JsVal)
    (hnd : (d.map Prod.fst).Nodup) (h : (k, v) ∈ d) : d.lookup k = some v := by
  induction d with
  | nil => simp at h
  | cons p d ih =>
    obtain ⟨a, b⟩ := p
    simp only [List.map_cons, List.nodup_cons] at hnd
    rcases List.mem_cons.1 h with h1 | h1
    · simp only [Prod.mk.injEq] at h1
      obtain ⟨rfl, rfl⟩ := h1
      simp [List.lookup_cons]
    · have hk : k ≠ a := by
        intro hka
        subst hka
        exact hnd.1 (List.mem_map.2 ⟨(k, v), h1, rfl⟩)
      have hb : (k == a) = false := by simpa using hk
      simp only [List.lookup_cons, hb]
      exact ih hnd.2 h1

/-- The entries of `{ ...d, k: v }` under keys other than `k` are those of `d`. -/
theorem mem_set_ne (d : Doc) (k : String) (v : JsVal) (p : String × JsVal)
    (hp : p.1 ≠ k) : p ∈ d.set k v ↔ p ∈ d := by
  unfold Doc.set
  split
  · constructor
    · intro h
      obtain ⟨q, hq, hqp⟩ := List.mem_map.1 h
      by_cases hqk : q.1 = k
      · simp [hqk] at hqp; rw [← hqp] at hp; exact absurd rfl hp
      · simp [hqk] at hqp; rw [← hqp]; exact hq
    · intro h
      exact List.mem_map.2 ⟨p, h, by simp [hp]⟩
  · constructor
    · intro h
      rcases List.mem_append.1 h with h | h
      · exact h
      · simp at h; rw [h] at hp; exact absurd rfl hp
    · intro h
      exact List.mem_append.2 (Or.inl h)

/-- With distinct keys in `e`, a field other than `k0` that `e` names holds the
value of `e` after `{ ...e, k0: v0 }` is merged into any document. -/
theorem lookup_merge_set_named (e d : Doc) (k0 k : String) (v0 v : JsVal) (hk : k ≠ k0)
    (hnd : (e.map Prod.fst).Nodup) (h : e.lookup k = some v) :
    (Doc.merge d (e.set k0 v0)).lookup k = some v := by
  apply lookup_merge_const
  · intro p hp hpk
    have hp1 : p ∈ e := (mem_set_ne e k0 v0 p (by rw [hpk]; exact hk)).1 hp
    obtain ⟨a, b⟩ := p
    simp only at hpk; subst hpk
    have := lookup_of_mem_nodup e a b hnd hp1
    rw [h] at this
    simpa using this.symm
  · exact Or.inr ⟨(k, v), (mem_set_ne e k0 v0 (k, v) hk).2 (mem_of_lookup e k v h), rfl⟩

/-- The collection after a call of `updateUserData`: untouched, or the stored
record updated, or the missing record created. -/
theorem updateUserData_store_cases (dbReady : Bool) (now : Nat) (rf wf : Option JsError)
    (fs : Firestore) (uid : String) (payload : Doc) :
    (updateUserData dbReady now rf wf fs uid payload).2 = fs ∨
      ((fs uid).isSome = true ∧ (updateUserData dbReady now rf wf fs uid payload).2 =
        fs.updateDoc uid (payload.set "updatedAt" (JsVal.time now))) ∨
      (fs uid = none ∧ (updateUserData dbReady now rf wf fs uid payload).2 =
        fs.setDoc uid
          ((payload.set "createdAt" (JsVal.time now)).set "updatedAt" (JsVal.time now))) := by
  unfold updateUserData
  by_cases h1 : uid = ""
  · simp [h1]
  · cases dbReady with
    | false => simp [h1]
    | true =>
      cases rf with
      | some e => simp [h1]
      | none =>
        cases wf with
        | some e => simp [h1]
        | none =>
          cases h : fs uid with
          | none => simp [h1, h]
          | some d => simp [h1, h]

/-- With a usable uid and `db` and no fault, `updateUserData` returns `true` and
updates the stored record or creates the missing one. -/
theorem updateUserData_healthy (now : Nat) (fs : Firestore) (uid : String) (payload : Doc)
    (huid : uid ≠ "") :
    updateUserData true now none none fs uid payload =
      (Except.ok true,
        if (fs uid).isSome then fs.updateDoc uid (payload.set "updatedAt" (JsVal.time now))
        else fs.setDoc uid
          ((payload.set "createdAt" (JsVal.time now)).set "updatedAt" (JsVal.time now))) := by
  unfold updateUserData
  simp only [huid, if_false, Bool.not_true, Bool.false_eq_true]
  split <;> rfl

/-- A call of `updateUserData` that returns has a usable uid and `db` and met
no fault, and it returns `true`. -/
theorem updateUserData_ok (dbReady : Bool) (now : Nat) (rf wf : Option JsError)
    (fs : Firestore) (uid : String) (payload : Doc) (b : Bool)
    (h : (updateUserData dbReady now rf wf fs uid payload).1 = Except.ok b) :
    uid ≠ "" ∧ dbReady = true ∧ rf = none ∧ wf = none ∧ b = true := by
  unfold updateUserData at h
  by_cases h1 : uid = ""
  · simp [h1] at h
  · cases dbReady with
    | false => simp [h1] at h
    | true =>
      cases rf with
      | some e => simp [h1] at h
      | none =>
        cases wf with
        | some e => simp [h1] at h
        | none =>
          refine ⟨h1, rfl, rfl, rfl, ?_⟩
          simp only [h1, if_false, Bool.not_true, Bool.false_eq_true] at h
          split at h <;> (injection h with h; exact h.symm)

/-- A call of `updateUserData` leaves the documents of other uids alone. -/
theorem updateUserData_other (dbReady : Bool) (now : Nat) (rf wf : Option JsError)
    (fs : Firestore) (uid uid1 : String) (payload : Doc) (h : uid1 ≠ uid) :
    (updateUserData dbReady now rf wf fs uid payload).2 uid1 = fs uid1 := by
  rcases updateUserData_store_cases dbReady now rf wf fs uid payload with h1 | ⟨_, h1⟩ | ⟨_, h1⟩
  · rw [h1]
  · rw [h1]; simp [Firestore.updateDoc, h]
  · rw [h1]; simp [Firestore.setDoc, h]

/-- On an existing record, a call of `updateUserData` leaves every field alone
that the payload does not name, `updatedAt` apart, whether it succeeds or not. -/
theorem updateUserData_frame (dbReady : Bool) (now : Nat) (rf wf : Option JsError)
    (fs : Firestore) (uid : String) (payload d : Doc) (k : String)
    (hd : fs uid = some d) (hk : k ≠ "updatedAt") (hp : payload.lookup k = none) :
    ∃ d1, (updateUserData dbReady now rf wf fs uid payload).2 uid = some d1 ∧
      d1.lookup k = d.lookup k := by
  rcases updateUserData_store_cases dbReady now rf wf fs uid payload with h1 | ⟨_, h1⟩ | ⟨h0, _⟩
  · exact ⟨d, by rw [h1, hd], rfl⟩
  · refine ⟨Doc.merge d (payload.set "updatedAt" (JsVal.time now)), ?_, ?_⟩
    · rw [h1]; simp [Firestore.updateDoc, hd]
    · exact lookup_merge_frame _ _ _ (by rw [lookup_set_ne _ _ _ _ hk]; exact hp)
  · rw [hd] at h0; cases h0

/-- On a missing record, a call of `updateUserData` leaves the record missing or
creates it from the payload with `createdAt` and `updatedAt`. -/
theorem updateUserData_missing (dbReady : Bool) (now : Nat) (rf wf : Option JsError)
    (fs : Firestore) (uid : String) (payload : Doc) (hd : fs uid = none) :
    (updateUserData dbReady now rf wf fs uid payload).2 uid = none ∨
      (updateUserData dbReady now rf wf fs uid payload).2 uid =
        some ((payload.set "createdAt" (JsVal.time now)).set "updatedAt" (JsVal.time now)) := by
  rcases updateUserData_store_cases dbReady now rf wf fs uid payload with h1 | ⟨h0, _⟩ | ⟨_, h1⟩
  · left; rw [h1, hd]
  · rw [hd] at h0; cases h0
  · right; rw [h1]; simp [Firestore.setDoc]

/-- A run of `handleProfileUpdate` either leaves the collection and the log of
`updateUserData` calls alone, or makes the one call of `updateUserData` with the
payload of five fields for the uid of the identity. -/
theorem handleProfileUpdate_effects (env : FormEnv) (currentUser : Option User)
    (s : FormState) :
    ((handleProfileUpdate env currentUser s).store = s.store ∧
      (handleProfileUpdate env currentUser s).updates = s.updates) ∨
    ∃ u, currentUser = some u ∧
      (handleProfileUpdate env currentUser s).store =
        (updateUserData env.dbReady env.now env.updateRead env.updateWrite s.store u.uid
          (profileUpdatePayload s.formData)).2 ∧
      (handleProfileUpdate env currentUser s).updates =
        s.updates ++ [(u.uid, profileUpdatePayload s.formData)] := by
  cases currentUser with
  | none => left; simp [handleProfileUpdate, profileUpdateTry]
  | some u =>
    by_cases huid : u.uid = ""
    · left; simp [handleProfileUpdate, profileUpdateTry, huid]
    · rcases hU : updateUserData env.dbReady env.now env.updateRead env.updateWrite s.store
        u.uid (profileUpdatePayload s.formData) with ⟨r, fs1⟩
      by_cases hname : s.formData.get "name" = JsVal.ofNullable u.displayName
      · right
        refine ⟨u, rfl, ?_⟩
        cases r <;> simp [handleProfileUpdate, profileUpdateTry, huid, hname, hU]
      · cases hf : env.updateProfileFault with
        | some e => left; simp [handleProfileUpdate, profileUpdateTry, huid, hname, hf]
        | none =>
          right
          refine ⟨u, rfl, ?_⟩
          cases r <;> simp [handleProfileUpdate, profileUpdateTry, huid, hname, hf, hU]

/-- A form that passes both validations reaches the `try` block of
`handlePasswordUpdate`. -/
theorem handlePasswordUpdate_valid (env : FormEnv) (currentUser : Option User)
    (s : FormState) (h1 : s.passwordData.new = s.passwordData.confirm)
    (h2 : ¬ jsLength s.passwordData.new < 6) :
    handlePasswordUpdate env currentUser s =
      match passwordUpdateTry env currentUser
          { s with loading := true, successMessage := "", errorMessage := "" } with
      | (s1, none) => { s1 with loading := false }
      | (s1, some error) =>
        { s1 with errorMessage := passwordErrorMessage error, loading := false } := by
  unfold handlePasswordUpdate
  rw [if_neg (not_not.2 h1), if_neg h2]

/-- A form whose new password is shorter than 6 stops at the second validation. -/
theorem handlePasswordUpdate_short (env : FormEnv) (currentUser : Option User)
    (s : FormState) (h1 : s.passwordData.new = s.passwordData.confirm)
    (h2 : jsLength s.passwordData.new < 6) :
    handlePasswordUpdate env currentUser s =
      { s with successMessage := "", errorMessage := "Password must be at least 6 characters",
               loading := false } := by
  unfold handlePasswordUpdate
  rw [if_neg (not_not.2 h1), if_pos h2]

/-- The calls a run of `handlePasswordUpdate` adds to the log of identity-provider
calls: none, the re-authentication alone (which then failed), or the
re-authentication (which then succeeded) followed by the password update. -/
theorem handlePasswordUpdate_calls (env : FormEnv) (currentUser : Option User)
    (s : FormState) :
    (handlePasswordUpdate env currentUser s).authCalls = s.authCalls ∨
    (∃ u e, currentUser = some u ∧ env.reauthFault = some e ∧
      (handlePasswordUpdate env currentUser s).authCalls =
        s.authCalls ++ [AuthCall.reauthenticate u.email s.passwordData.current]) ∨
    (∃ u, currentUser = some u ∧ env.reauthFault = none ∧
      (handlePasswordUpdate env currentUser s).authCalls =
        s.authCalls ++ [AuthCall.reauthenticate u.email s.passwordData.current,
          AuthCall.updatePassword s.passwordData.new]) := by
  by_cases h1 : s.passwordData.new = s.passwordData.confirm
  · by_cases h2 : jsLength s.passwordData.new < 6
    · left; rw [handlePasswordUpdate_short env currentUser s h1 h2]
    · rw [handlePasswordUpdate_valid env currentUser s h1 h2]
      cases currentUser with
      | none => left; simp [passwordUpdateTry]
      | some u =>
        cases hr : env.reauthFault with
        | some e =>
          right; left
          exact ⟨u, e, rfl, rfl, by simp [passwordUpdateTry, hr]⟩
        | none =>
          right; right
          refine ⟨u, rfl, rfl, ?_⟩
          cases hp : env.updatePasswordFault <;> simp [passwordUpdateTry, hr, hp]
  · left; simp [handlePasswordUpdate, h1]

/-- The `catch` block of `handlePasswordUpdate` sets the message the
specification words. -/
theorem passwordErrorMessage_eq (e : JsError) :
    passwordErrorMessage e = specPasswordMessage e.code e.message := by
  unfold passwordErrorMessage specPasswordMessage
  split_ifs <;> simp_all

/-- One run of the loop body adds no `updateUserData` call to the log. -/
theorem loopBody_updateCalls (env : Env) (fs : Firestore) (uid : String) (s : LoopState) :
    updateCalls (loopBody env fs uid s).1.log = updateCalls s.log := by
  unfold loopBody
  split
  · split <;> simp [updateCalls]
  · split <;> simp [updateCalls]

/-- The retry loop adds no `updateUserData` call to the log, however it ends. -/
theorem retryLoop_updateCalls (env : Env) (fs : Firestore) (uid : String) :
    ∀ (fuel : Nat) (s : LoopState),
      updateCalls (retryLoop env fs uid fuel s).state.log = updateCalls s.log := by
  intro fuel
  induction fuel with
  | zero =>
    intro s
    unfold retryLoop
    split <;> rfl
  | succ n ih =>
    intro s
    unfold retryLoop
    split
    · have hb := loopBody_updateCalls env fs uid s
      rcases hlb : loopBody env fs uid s with ⟨s1, oe⟩
      rw [hlb] at hb
      cases oe with
      | some e => exact hb
      | none => simp only [ih s1]; exact hb
    · rfl

/-- The block after the loop leaves collection and log alone, or makes the one
call of `updateUserData` with `newUserData`. -/
theorem createIfMissing_cases (env : Env) (u : User) (fs : Firestore) (l : LoopState) :
    ((createIfMissing env u fs l).2.1 = fs ∧ (createIfMissing env u fs l).2.2 = l.log) ∨
    ((createIfMissing env u fs l).2.1 =
        (updateUserData env.dbReady env.now env.updateRead env.updateWrite fs u.uid
          (newUserData u)).2 ∧
      (createIfMissing env u fs l).2.2 =
        l.log ++ [Event.updateUserData u.uid (newUserData u)]) := by
  unfold createIfMissing
  cases l.userData with
  | some d => left; exact ⟨rfl, rfl⟩
  | none =>
    right
    rcases hU : updateUserData env.dbReady env.now env.updateRead env.updateWrite fs u.uid
      (newUserData u) with ⟨r, fs1⟩
    cases r <;> exact ⟨rfl, rfl⟩

/-- A run of `fetchUserData` leaves the collection alone and logs no
`updateUserData` call, or it makes the one call of `updateUserData` with
`newUserData` for the uid of the identity. -/
theorem fetchUserData_write_cases (env : Env) (currentUser : Option User) (fuel : Nat)
    (s : State) :
    ((fetchUserData env currentUser fuel s).state.store = s.store ∧
      updateCalls (fetchUserData env currentUser fuel s).state.log = updateCalls s.log) ∨
    ∃ u, currentUser = some u ∧
      (fetchUserData env currentUser fuel s).state.store =
        (updateUserData env.dbReady env.now env.updateRead env.updateWrite s.store u.uid
          (newUserData u)).2 ∧
      updateCalls (fetchUserData env currentUser fuel s).state.log =
        updateCalls s.log ++ [(u.uid, newUserData u)] := by
  cases currentUser with
  | none => left; exact ⟨rfl, rfl⟩
  | some u =>
    by_cases huid : u.uid = ""
    · left; simp [fetchUserData, huid, Run.state]
    · have hloop := retryLoop_updateCalls env s.store u.uid fuel
        { userData := none, retryCount := 0, fetches := 0, log := s.log }
      rcases hr : retryLoop env s.store u.uid fuel
        { userData := none, retryCount := 0, fetches := 0, log := s.log } with l | ⟨l, e⟩ | l
      · rw [hr] at hloop
        simp only [LoopRun.state] at hloop
        have hcases := createIfMissing_cases env u s.store l
        rcases hc : createIfMissing env u s.store l with ⟨ud, fs1, log1⟩
        rw [hc] at hcases
        simp only at hcases
        have hst : (fetchUserData env (some u) fuel s).state.store = fs1 := by
          simp [fetchUserData, huid, hr, hc, Run.state]
        have hlg : (fetchUserData env (some u) fuel s).state.log = log1 := by
          simp [fetchUserData, huid, hr, hc, Run.state]
        rw [hst, hlg]
        rcases hcases with ⟨h1, h2⟩ | ⟨h1, h2⟩
        · left; exact ⟨h1, by rw [h2]; exact hloop⟩
        · right
          refine ⟨u, rfl, h1, ?_⟩
          rw [h2, updateCalls_append, hloop]
          rfl
      · rw [hr] at hloop
        left
        simpa [fetchUserData, huid, hr, Run.state, LoopRun.state] using hloop
      · rw [hr] at hloop
        left
        simpa [fetchUserData, huid, hr, Run.state, LoopRun.state] using hloop

/-! ## The claims on `updateUserData`, the form handlers and `checkUserIsAdmin` -/

/-- Counterexample to C11: on the stored record of `u1`, `updateUserData` with a
payload that names `email` and `isAdmin` returns `true` and overwrites both
stored values. -/
theorem updateUserData_overwrites_email_isAdmin :
    (bobStore "u1").map (fun d => (d.get "email", d.get "isAdmin")) =
        some (JsVal.str "bob@x.com", JsVal.bool false) ∧
      (updateUserData true 9 none none bobStore "u1" escalationPayload).1 = Except.ok true ∧
      ((updateUserData true 9 none none bobStore "u1" escalationPayload).2 "u1").map
          (fun d => (d.get "email", d.get "isAdmin")) =
        some (JsVal.str "eve@x.com", JsVal.bool true) :=
  ⟨by decide, rfl, by decide⟩

/-- C11, amended: `handleProfileUpdate` hands `updateUserData` a payload without
`email` and `isAdmin`, so for every existing stored record, every form content
and every backend behaviour the stored `email` and `isAdmin` after a profile edit
are those before it. -/
theorem handleProfileUpdate_keeps_email_isAdmin (env : FormEnv) (u : User) (s : FormState)
    (d : Doc) (hd : s.store u.uid = some d) :
    (∃ d1, (handleProfileUpdate env (some u) s).store u.uid = some d1 ∧
      d1.lookup "email" = d.lookup "email" ∧ d1.lookup "isAdmin" = d.lookup "isAdmin") ∧
    (∀ p ∈ (handleProfileUpdate env (some u) s).updates,
      p ∈ s.updates ∨ (p.2.lookup "email" = none ∧ p.2.lookup "isAdmin" = none)) := by
  have hframe : ∀ k, k ≠ "updatedAt" → (profileUpdatePayload s.formData).lookup k = none →
      ∃ d1, (updateUserData env.dbReady env.now env.updateRead env.updateWrite s.store u.uid
        (profileUpdatePayload s.formData)).2 u.uid = some d1 ∧ d1.lookup k = d.lookup k :=
    fun k hk hp => updateUserData_frame _ _ _ _ _ _ _ d k hd hk hp
  obtain ⟨d1, h1, he⟩ := hframe "email" (by decide) rfl
  obtain ⟨d2, h2, ha⟩ := hframe "isAdmin" (by decide) rfl
  have h12 : d1 = d2 := by rw [h1] at h2; exact Option.some.inj h2
  subst h12
  rcases handleProfileUpdate_effects env (some u) s with ⟨hs, hu⟩ | ⟨u1, hu1, hs, hu⟩
  · refine ⟨⟨d, by rw [hs]; exact hd, rfl, rfl⟩, fun p hp => Or.inl (by rw [← hu]; exact hp)⟩
  · cases hu1
    refine ⟨⟨d1, by rw [hs]; exact h1, he, ha⟩, fun p hp => ?_⟩
    rw [hu] at hp
    rcases List.mem_append.1 hp with hp | hp
    · exact Or.inl hp
    · right
      simp only [List.mem_singleton] at hp
      subst hp
      exact ⟨rfl, rfl⟩

/-- Witness of C11, amended: a profile edit of `u1` over the stored record `bobDoc`. -/
theorem handleProfileUpdate_keeps_email_isAdmin_witness :
    (∃ d1, (handleProfileUpdate formEnvUp (some ann)
        (FormState.initial bobStore ⟨"", "", ""⟩)).store ann.uid = some d1 ∧
      d1.lookup "email" = bobDoc.lookup "email" ∧
      d1.lookup "isAdmin" = bobDoc.lookup "isAdmin") ∧
    (∀ p ∈ (handleProfileUpdate formEnvUp (some ann)
        (FormState.initial bobStore ⟨"", "", ""⟩)).updates,
      p ∈ (FormState.initial bobStore ⟨"", "", ""⟩).updates ∨
        (p.2.lookup "email" = none ∧ p.2.lookup "isAdmin" = none)) :=
  handleProfileUpdate_keeps_email_isAdmin formEnvUp ann
    (FormState.initial bobStore ⟨"", "", ""⟩) bobDoc rfl

/-- C12: whenever `updateUserData` returns (which needs a non-empty uid), the
document it wrote, by `updateDoc` on an existing record or by `setDoc` on a
missing one, carries `updatedAt` equal to the time of the call, and so does the
stored record afterwards, whatever the payload holds under `updatedAt`. -/
theorem updateUserData_stamps_updatedAt (dbReady : Bool) (now : Nat) (rf wf : Option JsError)
    (fs : Firestore) (uid : String) (payload : Doc) (b : Bool)
    (hok : (updateUserData dbReady now rf wf fs uid payload).1 = Except.ok b) :
    ∃ written d1, written.get "updatedAt" = JsVal.time now ∧
      (updateUserData dbReady now rf wf fs uid payload).2 =
        (if (fs uid).isSome then fs.updateDoc uid written else fs.setDoc uid written) ∧
      (updateUserData dbReady now rf wf fs uid payload).2 uid = some d1 ∧
      d1.get "updatedAt" = JsVal.time now := by
  obtain ⟨huid, rfl, rfl, rfl, rfl⟩ := updateUserData_ok _ _ _ _ _ _ _ _ hok
  rw [updateUserData_healthy now fs uid payload huid]
  cases hd : fs uid with
  | some d =>
    refine ⟨payload.set "updatedAt" (JsVal.time now), Doc.merge d (payload.set "updatedAt" (JsVal.time now)),
      get_set_self _ _ _, by simp, by simp [Firestore.updateDoc, hd], ?_⟩
    have := lookup_merge_const (payload.set "updatedAt" (JsVal.time now)) d "updatedAt"
      (JsVal.time now) (set_all _ _ _)
      (Or.inr ⟨("updatedAt", JsVal.time now), mem_of_lookup _ _ _ (lookup_set_self _ _ _), rfl⟩)
    simp [Doc.get, this]
  | none =>
    refine ⟨(payload.set "createdAt" (JsVal.time now)).set "updatedAt" (JsVal.time now),
      (payload.set "createdAt" (JsVal.time now)).set "updatedAt" (JsVal.time now),
      get_set_self _ _ _, by simp, by simp [Firestore.setDoc], get_set_self _ _ _⟩

/-- Witness of C12: a payload that names `updatedAt` itself. -/
theorem updateUserData_stamps_updatedAt_witness :
    ∃ written d1, written.get "updatedAt" = JsVal.time 9 ∧
      (updateUserData true 9 none none bobStore "u1" escalationPayload).2 =
        (if (bobStore "u1").isSome then bobStore.updateDoc "u1" written
         else bobStore.setDoc "u1" written) ∧
      (updateUserData true 9 none none bobStore "u1" escalationPayload).2 "u1" = some d1 ∧
      d1.get "updatedAt" = JsVal.time 9 :=
  updateUserData_stamps_updatedAt true 9 none none bobStore "u1" escalationPayload true rfl

/-- C13: with a non-empty uid, a usable `db` and no fault, `updateUserData`
returns `true` and touches no other uid; on an existing record every field the
payload does not name is left as it was (`updatedAt` apart), every field it names
holds the payload's value and `updatedAt` is the time of the call; on a missing
record the record created has exactly the payload's fields plus `createdAt` and
`updatedAt`, both the time of the call, and the payload's values elsewhere.  The
payload is an object: its keys are distinct. -/
theorem updateUserData_create_or_update (now : Nat) (fs : Firestore) (uid : String)
    (payload : Doc) (huid : uid ≠ "") (hnd : (payload.map Prod.fst).Nodup) :
    (updateUserData true now none none fs uid payload).1 = Except.ok true ∧
    (∀ uid1, uid1 ≠ uid → (updateUserData true now none none fs uid payload).2 uid1 = fs uid1) ∧
    (∀ d, fs uid = some d →
      ∃ d1, (updateUserData true now none none fs uid payload).2 uid = some d1 ∧
        (∀ k, k ≠ "updatedAt" → payload.has k = false → d1.lookup k = d.lookup k) ∧
        (∀ k, k ≠ "updatedAt" → payload.has k = true → d1.lookup k = payload.lookup k) ∧
        d1.lookup "updatedAt" = some (JsVal.time now)) ∧
    (fs uid = none →
      ∃ d1, (updateUserData true now none none fs uid payload).2 uid = some d1 ∧
        (∀ k, d1.has k = true ↔ (payload.has k = true ∨ k = "createdAt" ∨ k = "updatedAt")) ∧
        (∀ k, k ≠ "createdAt" → k ≠ "updatedAt" → d1.lookup k = payload.lookup k) ∧
        d1.lookup "createdAt" = some (JsVal.time now) ∧
        d1.lookup "updatedAt" = some (JsVal.time now)) := by
  rw [updateUserData_healthy now fs uid payload huid]
  refine ⟨rfl, ?_, ?_, ?_⟩
  · intro uid1 h
    simp only
    split <;> simp [Firestore.updateDoc, Firestore.setDoc, h]
  · intro d hd
    refine ⟨Doc.merge d (payload.set "updatedAt" (JsVal.time now)), by
      simp [hd, Firestore.updateDoc], ?_, ?_, ?_⟩
    · intro k hk hp
      apply lookup_merge_frame
      rw [lookup_set_ne _ _ _ _ hk]
      simpa [Doc.has] using hp
    · intro k hk hp
      cases hl : payload.lookup k with
      | none => simp [Doc.has, hl] at hp
      | some v => exact lookup_merge_set_named payload d "updatedAt" k _ v hk hnd hl
    · exact lookup_merge_const _ d "updatedAt" (JsVal.time now) (set_all _ _ _)
        (Or.inr ⟨("updatedAt", JsVal.time now), mem_of_lookup _ _ _ (lookup_set_self _ _ _), rfl⟩)
  · intro hd
    refine ⟨(payload.set "createdAt" (JsVal.time now)).set "updatedAt" (JsVal.time now), by
      simp [hd, Firestore.setDoc], ?_, ?_, ?_, lookup_set_self _ _ _⟩
    · intro k
      by_cases hu : k = "updatedAt"
      · subst hu; simp [Doc.has, lookup_set_self]
      · by_cases hc : k = "createdAt"
        · subst hc
          simp [Doc.has, lookup_set_ne _ _ _ _ hu, lookup_set_self]
        · simp [Doc.has, lookup_set_ne _ _ _ _ hu, lookup_set_ne _ _ _ _ hc, hu, hc]
    · intro k hc hu
      rw [lookup_set_ne _ _ _ _ hu, lookup_set_ne _ _ _ _ hc]
    · rw [lookup_set_ne _ _ _ _ (by decide), lookup_set_self]

/-- Witness of C13: an update of the stored record of `u1`. -/
theorem updateUserData_create_or_update_witness :
    (updateUserData true 9 none none bobStore "u1" escalationPayload).1 = Except.ok true ∧
    (∀ uid1, uid1 ≠ "u1" →
      (updateUserData true 9 none none bobStore "u1" escalationPayload).2 uid1 = bobStore uid1) ∧
    (∀ d, bobStore "u1" = some d →
      ∃ d1, (updateUserData true 9 none none bobStore "u1" escalationPayload).2 "u1" = some d1 ∧
        (∀ k, k ≠ "updatedAt" → escalationPayload.has k = false → d1.lookup k = d.lookup k) ∧
        (∀ k, k ≠ "updatedAt" → escalationPayload.has k = true →
          d1.lookup k = escalationPayload.lookup k) ∧
        d1.lookup "updatedAt" = some (JsVal.time 9)) ∧
    (bobStore "u1" = none →
      ∃ d1, (updateUserData true 9 none none bobStore "u1" escalationPayload).2 "u1" = some d1 ∧
        (∀ k, d1.has k = true ↔
          (escalationPayload.has k = true ∨ k = "createdAt" ∨ k = "updatedAt")) ∧
        (∀ k, k ≠ "createdAt" → k ≠ "updatedAt" → d1.lookup k = escalationPayload.lookup k) ∧
        d1.lookup "createdAt" = some (JsVal.time 9) ∧
        d1.lookup "updatedAt" = some (JsVal.time 9)) :=
  updateUserData_create_or_update 9 bobStore "u1" escalationPayload (by decide) (by decide)

/-- C14: in every run of `handlePasswordUpdate`, if the re-authentication fails no
`updatePassword` call is made, and an `updatePassword` call is made only after a
`reauthenticateWithCredential` call with the identity's email and the current
password that succeeded: the calls of the run are then exactly these two, in this
order. -/
theorem handlePasswordUpdate_reauth_first (env : FormEnv) (currentUser : Option User)
    (s : FormState) :
    ∃ calls, (handlePasswordUpdate env currentUser s).authCalls = s.authCalls ++ calls ∧
      (env.reauthFault ≠ none → ∀ pw, AuthCall.updatePassword pw ∉ calls) ∧
      (∀ pw, AuthCall.updatePassword pw ∈ calls →
        ∃ u, currentUser = some u ∧ env.reauthFault = none ∧
          calls = [AuthCall.reauthenticate u.email s.passwordData.current,
            AuthCall.updatePassword s.passwordData.new]) := by
  rcases handlePasswordUpdate_calls env currentUser s with h | ⟨u, e, hu, he, h⟩ | ⟨u, hu, he, h⟩
  · exact ⟨[], by simpa using h, fun _ pw hp => by simp at hp, fun pw hp => by simp at hp⟩
  · exact ⟨_, h, fun _ pw hp => by simp at hp, fun pw hp => by simp at hp⟩
  · exact ⟨_, h, fun hne => absurd he hne, fun pw _ => ⟨u, hu, he, rfl⟩⟩

/-- C15: for every password form whose new and confirm values differ,
`handlePasswordUpdate` sets the message `New password and confirm password do not
match`, makes no call to the identity provider and ends with `loading` false. -/
theorem handlePasswordUpdate_mismatch (env : FormEnv) (currentUser : Option User)
    (s : FormState) (hne : s.passwordData.new ≠ s.passwordData.confirm) :
    (handlePasswordUpdate env currentUser s).errorMessage =
        "New password and confirm password do not match" ∧
      (handlePasswordUpdate env currentUser s).authCalls = s.authCalls ∧
      (handlePasswordUpdate env currentUser s).successMessage = "" ∧
      (handlePasswordUpdate env currentUser s).loading = false := by
  simp [handlePasswordUpdate, hne]

/-- Witness of C15: the new password `newpass1` confirmed as `newpass2`. -/
theorem handlePasswordUpdate_mismatch_witness :
    (handlePasswordUpdate formEnvUp (some ann)
        (FormState.initial bobStore ⟨"old", "newpass1", "newpass2"⟩)).errorMessage =
        "New password and confirm password do not match" ∧
      (handlePasswordUpdate formEnvUp (some ann)
        (FormState.initial bobStore ⟨"old", "newpass1", "newpass2"⟩)).authCalls =
        (FormState.initial bobStore ⟨"old", "newpass1", "newpass2"⟩).authCalls ∧
      (handlePasswordUpdate formEnvUp (some ann)
        (FormState.initial bobStore ⟨"old", "newpass1", "newpass2"⟩)).successMessage = "" ∧
      (handlePasswordUpdate formEnvUp (some ann)
        (FormState.initial bobStore ⟨"old", "newpass1", "newpass2"⟩)).loading = false :=
  handlePasswordUpdate_mismatch formEnvUp (some ann)
    (FormState.initial bobStore ⟨"old", "newpass1", "newpass2"⟩) (by decide)

/-- C16: for a logged-in identity and a new password whose confirm value matches,
`handlePasswordUpdate` calls the identity provider (first
`reauthenticateWithCredential`) iff the `length` of the new password is at least
6; below 6 it sets `Password must be at least 6 characters` and makes no call. -/
theorem handlePasswordUpdate_length_gate (env : FormEnv) (u : User) (s : FormState)
    (hmatch : s.passwordData.new = s.passwordData.confirm) :
    ((∃ rest, (handlePasswordUpdate env (some u) s).authCalls =
        s.authCalls ++ AuthCall.reauthenticate u.email s.passwordData.current :: rest) ↔
      6 ≤ jsLength s.passwordData.new) ∧
    (jsLength s.passwordData.new < 6 →
      (handlePasswordUpdate env (some u) s).errorMessage =
          "Password must be at least 6 characters" ∧
        (handlePasswordUpdate env (some u) s).authCalls = s.authCalls ∧
        (handlePasswordUpdate env (some u) s).loading = false) := by
  have hshort : jsLength s.passwordData.new < 6 →
      (handlePasswordUpdate env (some u) s).errorMessage =
          "Password must be at least 6 characters" ∧
        (handlePasswordUpdate env (some u) s).authCalls = s.authCalls ∧
        (handlePasswordUpdate env (some u) s).loading = false := by
    intro h2
    rw [handlePasswordUpdate_short env (some u) s hmatch h2]
    exact ⟨rfl, rfl, rfl⟩
  refine ⟨⟨?_, ?_⟩, hshort⟩
  · rintro ⟨rest, hrest⟩
    by_contra h6
    rw [(hshort (by omega)).2.1] at hrest
    simp at hrest
  · intro h6
    have h2 : ¬ jsLength s.passwordData.new < 6 := by omega
    rw [handlePasswordUpdate_valid env (some u) s hmatch h2]
    cases hr : env.reauthFault with
    | some e => exact ⟨[], by simp [passwordUpdateTry, hr]⟩
    | none =>
      refine ⟨[AuthCall.updatePassword s.passwordData.new], ?_⟩
      cases hp : env.updatePasswordFault <;> simp [passwordUpdateTry, hr, hp]

/-- Witness of C16: the new password `newpass1`, confirmed. -/
theorem handlePasswordUpdate_length_gate_witness :
    ((∃ rest, (handlePasswordUpdate formEnvUp (some ann)
          (FormState.initial bobStore ⟨"old", "newpass1", "newpass1"⟩)).authCalls =
        (FormState.initial bobStore ⟨"old", "newpass1", "newpass1"⟩).authCalls ++
          AuthCall.reauthenticate ann.email
            (FormState.initial bobStore ⟨"old", "newpass1", "newpass1"⟩).passwordData.current ::
            rest) ↔
      6 ≤ jsLength (FormState.initial bobStore ⟨"old", "newpass1", "newpass1"⟩).passwordData.new) ∧
    (jsLength (FormState.initial bobStore ⟨"old", "newpass1", "newpass1"⟩).passwordData.new < 6 →
      (handlePasswordUpdate formEnvUp (some ann)
          (FormState.initial bobStore ⟨"old", "newpass1", "newpass1"⟩)).errorMessage =
          "Password must be at least 6 characters" ∧
        (handlePasswordUpdate formEnvUp (some ann)
          (FormState.initial bobStore ⟨"old", "newpass1", "newpass1"⟩)).authCalls =
          (FormState.initial bobStore ⟨"old", "newpass1", "newpass1"⟩).authCalls ∧
        (handlePasswordUpdate formEnvUp (some ann)
          (FormState.initial bobStore ⟨"old", "newpass1", "newpass1"⟩)).loading = false) :=
  handlePasswordUpdate_length_gate formEnvUp ann
    (FormState.initial bobStore ⟨"old", "newpass1", "newpass1"⟩) rfl

/-- Counterexample to C17: an identity whose provider is `facebook.com` is offered
the change-password form, and its submit re-authenticates and updates the
password. -/
theorem passwordForm_offered_to_federated :
    annFacebook.providerData = ["facebook.com"] ∧
      passwordPanel (some annFacebook) = PasswordPanel.passwordForm ∧
      (submitPasswordTab formEnvUp (some annFacebook)
        (FormState.initial bobStore ⟨"old", "newpass1", "newpass1"⟩)).authCalls =
        [AuthCall.reauthenticate (some "ann@x.com") "old", AuthCall.updatePassword "newpass1"] := by
  decide

/-- C17, amended: the change-password form is withheld exactly on the test
`providerData[0].providerId === 'google.com'`.  For every identity the
`Change Password` tab shows the Google notice iff its first provider id is
`google.com`, and the form iff it is anything else (another federated provider
or none at all included); on the notice a submit changes nothing, so no call to
the identity provider is made; on the form a submit runs `handlePasswordUpdate`,
whose result does not depend on the provider data of the identity. -/
theorem passwordPanel_google_iff (env : FormEnv) (u : User) (s : FormState) :
    (passwordPanel (some u) = PasswordPanel.googleNotice ↔
      u.providerData.head? = some "google.com") ∧
    (passwordPanel (some u) = PasswordPanel.passwordForm ↔
      u.providerData.head? ≠ some "google.com") ∧
    (u.providerData.head? = some "google.com" →
      submitPasswordTab env (some u) s = s) ∧
    (u.providerData.head? ≠ some "google.com" →
      submitPasswordTab env (some u) s = handlePasswordUpdate env (some u) s) ∧
    (∀ providerData,
      handlePasswordUpdate env (some { u with providerData := providerData }) s =
        handlePasswordUpdate env (some u) s) := by
  by_cases hg : u.providerData.head? = some "google.com"
  · have hp : passwordPanel (some u) = PasswordPanel.googleNotice := by
      simp [passwordPanel, hg]
    refine ⟨⟨fun _ => hg, fun _ => hp⟩, ⟨fun h => ?_, fun h => absurd hg h⟩,
      fun _ => by simp [submitPasswordTab, hp], fun h => absurd hg h, fun _ => rfl⟩
    rw [hp] at h; cases h
  · have hp : passwordPanel (some u) = PasswordPanel.passwordForm := by
      simp [passwordPanel, hg]
    refine ⟨⟨fun h => ?_, fun h => absurd h hg⟩, ⟨fun _ => hg, fun _ => hp⟩,
      fun h => absurd h hg, fun _ => by simp [submitPasswordTab, hp], fun _ => rfl⟩
    rw [hp] at h; cases h

/-- Witness of C17, amended: the identity `u1` signed in through Google. -/
theorem passwordPanel_google_iff_witness :
    (passwordPanel (some annGoogle) = PasswordPanel.googleNotice ↔
      annGoogle.providerData.head? = some "google.com") ∧
    (passwordPanel (some annGoogle) = PasswordPanel.passwordForm ↔
      annGoogle.providerData.head? ≠ some "google.com") ∧
    (annGoogle.providerData.head? = some "google.com" →
      submitPasswordTab formEnvUp (some annGoogle)
        (FormState.initial bobStore ⟨"old", "newpass1", "newpass1"⟩) =
        FormState.initial bobStore ⟨"old", "newpass1", "newpass1"⟩) ∧
    (annGoogle.providerData.head? ≠ some "google.com" →
      submitPasswordTab formEnvUp (some annGoogle)
        (FormState.initial bobStore ⟨"old", "newpass1", "newpass1"⟩) =
        handlePasswordUpdate formEnvUp (some annGoogle)
          (FormState.initial bobStore ⟨"old", "newpass1", "newpass1"⟩)) ∧
    (∀ providerData,
      handlePasswordUpdate formEnvUp (some { annGoogle with providerData := providerData })
          (FormState.initial bobStore ⟨"old", "newpass1", "newpass1"⟩) =
        handlePasswordUpdate formEnvUp (some annGoogle)
          (FormState.initial bobStore ⟨"old", "newpass1", "newpass1"⟩)) :=
  passwordPanel_google_iff formEnvUp annGoogle
    (FormState.initial bobStore ⟨"old", "newpass1", "newpass1"⟩)

/-- C18: when the re-authentication or the password update of a valid form fails
with the error `e`, the message `handlePasswordUpdate` shows is
`specPasswordMessage e.code e.message`; the message for
`auth/requires-recent-login` differs from the two other fixed messages. -/
theorem handlePasswordUpdate_error_message (env : FormEnv) (u : User) (s : FormState)
    (e : JsError) (hmatch : s.passwordData.new = s.passwordData.confirm)
    (hlen : 6 ≤ jsLength s.passwordData.new)
    (hfail : env.reauthFault = some e ∨
      (env.reauthFault = none ∧ env.updatePasswordFault = some e)) :
    (handlePasswordUpdate env (some u) s).errorMessage = specPasswordMessage e.code e.message ∧
      (∀ m, specPasswordMessage (some "auth/requires-recent-login") m ≠
        "Current password is incorrect") ∧
      (∀ m, specPasswordMessage (some "auth/requires-recent-login") m ≠
        "Failed to update password") := by
  have h2 : ¬ jsLength s.passwordData.new < 6 := by omega
  refine ⟨?_, fun m => by simp [specPasswordMessage], fun m => by simp [specPasswordMessage]⟩
  rw [handlePasswordUpdate_valid env (some u) s hmatch h2, ← passwordErrorMessage_eq]
  rcases hfail with hr | ⟨hr, hp⟩
  · simp [passwordUpdateTry, hr]
  · simp [passwordUpdateTry, hr, hp]

/-- Witness of C18: a re-authentication rejected with `auth/wrong-password`. -/
theorem handlePasswordUpdate_error_message_witness :
    (handlePasswordUpdate formEnvWrongPassword (some ann)
        (FormState.initial bobStore ⟨"old", "newpass1", "newpass1"⟩)).errorMessage =
        specPasswordMessage (some "auth/wrong-password") "wrong" ∧
      (∀ m, specPasswordMessage (some "auth/requires-recent-login") m ≠
        "Current password is incorrect") ∧
      (∀ m, specPasswordMessage (some "auth/requires-recent-login") m ≠
        "Failed to update password") :=
  handlePasswordUpdate_error_message formEnvWrongPassword ann
    (FormState.initial bobStore ⟨"old", "newpass1", "newpass1"⟩)
    { code := some "auth/wrong-password", message := "wrong" } rfl (by decide) (Or.inl rfl)

/-- C19: `checkUserIsAdmin` always returns (it never throws), and it returns `true`
iff the uid is non-empty, the read meets no fault, the record exists and its
`isAdmin` field is the boolean `true`. -/
theorem checkUserIsAdmin_true_iff (fs : Firestore) (readFault : Option JsError)
    (uid : String) :
    ∃ b, checkUserIsAdmin fs readFault uid = Except.ok b ∧
      (b = true ↔ uid ≠ "" ∧ readFault = none ∧
        ∃ d, fs uid = some d ∧ d.get "isAdmin" = JsVal.bool true) := by
  unfold checkUserIsAdmin
  by_cases huid : uid = ""
  · exact ⟨false, by simp [huid], by simp [huid]⟩
  · cases readFault with
    | some e => exact ⟨false, by simp [huid], by simp⟩
    | none =>
      cases hd : fs uid with
      | none => exact ⟨false, by simp [huid, hd], by simp⟩
      | some d =>
        exact ⟨decide (d.get "isAdmin" = JsVal.bool true), by simp [huid, hd], by simp [huid]⟩

/-- C20: for every identity, backend behaviour and amount of fuel, every
`updateUserData` call a run of `fetchUserData` makes carries a payload without
`isAdmin`; every record stored before the run is stored after it with the same
`isAdmin` field; and a record that exists only after the run has no `isAdmin`
field. -/
theorem fetchUserData_never_writes_isAdmin (env : Env) (currentUser : Option User)
    (fuel : Nat) (s : State) :
    (∃ writes, updateCalls (fetchUserData env currentUser fuel s).state.log =
        updateCalls s.log ++ writes ∧ ∀ p ∈ writes, p.2.has "isAdmin" = false) ∧
    (∀ uid d, s.store uid = some d →
      ∃ d1, (fetchUserData env currentUser fuel s).state.store uid = some d1 ∧
        d1.lookup "isAdmin" = d.lookup "isAdmin") ∧
    (∀ uid d1, s.store uid = none →
      (fetchUserData env currentUser fuel s).state.store uid = some d1 →
        d1.has "isAdmin" = false) := by
  rcases fetchUserData_write_cases env currentUser fuel s with ⟨hs, hl⟩ | ⟨u, _, hs, hl⟩
  · refine ⟨⟨[], by simpa using hl, by simp⟩, ?_, ?_⟩
    · intro uid d hd; exact ⟨d, by rw [hs]; exact hd, rfl⟩
    · intro uid d1 hn h1; rw [hs, hn] at h1; cases h1
  · rw [hs]
    refine ⟨⟨[(u.uid, newUserData u)], hl, ?_⟩, ?_, ?_⟩
    · intro p hp
      simp only [List.mem_singleton] at hp
      subst hp
      rfl
    · intro uid d hd
      by_cases hu : uid = u.uid
      · subst hu
        exact updateUserData_frame _ _ _ _ _ _ (newUserData u) d "isAdmin" hd (by decide) rfl
      · exact ⟨d, by rw [updateUserData_other _ _ _ _ _ _ _ _ hu]; exact hd, rfl⟩
    · intro uid d1 hn hsome
      by_cases hu : uid = u.uid
      · subst hu
        rcases updateUserData_missing env.dbReady env.now env.updateRead env.updateWrite
          s.store u.uid (newUserData u) hn with h | h
        · rw [h] at hsome; cases hsome
        · rw [h] at hsome
          cases hsome
          simp only [Doc.has]
          rw [lookup_set_ne _ _ _ _ (by decide), lookup_set_ne _ _ _ _ (by decide)]
          rfl
      · rw [updateUserData_other _ _ _ _ _ _ _ _ hu, hn] at hsome
        cases hsome

/-! ## Lemmas on `saveUserData` and the bound on `retryCount` -/

/-- A document has the field `k` iff `k` is among its keys. -/
theorem has_iff_mem_keys (d : Doc) (k : String) : d.has k = true ↔ k ∈ d.map Prod.fst := by
  unfold Doc.has
  induction d with
  | nil => simp
  | cons p d ih =>
    obtain ⟨a, b⟩ := p
    by_cases hk : k = a
    · subst hk; simp [List.lookup_cons]
    · have hb : (k == a) = false := by simpa using hk
      simp only [List.lookup_cons, hb, List.map_cons, List.mem_cons, hk, false_or]
      exact ih

/-- One run of the loop body keeps `retryCount` at most 2, and an error it
re-throws is the error of the fetch just made, met while `retryCount` is 2. -/
theorem loopBody_retryCount (env : Env) (fs : Firestore) (uid : String) (s : LoopState)
    (h : s.retryCount ≤ 2) :
    (loopBody env fs uid s).1.retryCount ≤ 2 ∧
      ∀ e, (loopBody env fs uid s).2 = some e →
        s.retryCount = 2 ∧ (loopBody env fs uid s).1.retryCount = 2 ∧
          getUserData env.dbReady fs (env.fetchNet s.fetches) uid = Except.error e := by
  unfold loopBody
  cases hg : getUserData env.dbReady fs (env.fetchNet s.fetches) uid with
  | ok userData =>
    simp only
    split
    · rename_i hc
      simp only [maxRetries, Bool.and_eq_true, decide_eq_true_eq] at hc
      exact ⟨by simp only; omega, fun e he => by simp at he⟩
    · exact ⟨h, fun e he => by simp at he⟩
  | error err =>
    simp only
    split
    · rename_i hc
      simp only [maxRetries] at hc
      exact ⟨by simp only; omega, fun e he => by simp at he⟩
    · rename_i hc
      simp only [maxRetries] at hc
      refine ⟨h, fun e he => ?_⟩
      simp only [Option.some.injEq] at he
      subst he
      exact ⟨by omega, by simp only; omega, rfl⟩

/-- However the retry loop stands, `retryCount` is at most 2; a loop that ended
normally holds a fetched record; a loop that threw re-threw the error of a fetch
made while `retryCount` was 2. -/
theorem retryLoop_invariant (env : Env) (fs : Firestore) (uid : String) :
    ∀ (fuel : Nat) (s : LoopState), s.retryCount ≤ 2 →
      (retryLoop env fs uid fuel s).state.retryCount ≤ 2 ∧
      (∀ l, retryLoop env fs uid fuel s = LoopRun.done l → ∃ d, l.userData = some d) ∧
      (∀ l e, retryLoop env fs uid fuel s = LoopRun.threw l e →
        l.retryCount = 2 ∧ ∃ k, getUserData env.dbReady fs (env.fetchNet k) uid = Except.error e) := by
  intro fuel
  induction fuel with
  | zero =>
    intro s h
    unfold retryLoop
    by_cases hc : loopCond s = true
    · simp only [hc, if_true]
      exact ⟨h, fun l hl => (by cases hl), fun l e hl => (by cases hl)⟩
    · simp only [hc, if_false]
      refine ⟨h, fun l hl => ?_, fun l e hl => (by cases hl)⟩
      cases hl
      cases hu : s.userData with
      | some d => exact ⟨d, rfl⟩
      | none =>
        exfalso; apply hc
        simp only [loopCond, hu, maxRetries, Option.isNone_none, Bool.true_and, decide_eq_true_eq]
        omega
  | succ n ih =>
    intro s h
    unfold retryLoop
    by_cases hc : loopCond s = true
    · simp only [hc, if_true]
      have hb := loopBody_retryCount env fs uid s h
      rcases hlb : loopBody env fs uid s with ⟨s1, oe⟩
      rw [hlb] at hb
      cases oe with
      | some e =>
        simp only
        obtain ⟨_, h2, hg⟩ := hb.2 e rfl
        refine ⟨hb.1, fun l hl => (by cases hl), fun l e1 hl => ?_⟩
        cases hl
        exact ⟨h2, _, hg⟩
      | none =>
        simp only
        exact ih s1 hb.1
    · simp only [hc, if_false]
      refine ⟨h, fun l hl => ?_, fun l e hl => (by cases hl)⟩
      cases hl
      cases hu : s.userData with
      | some d => exact ⟨d, rfl⟩
      | none =>
        exfalso; apply hc
        simp only [loopCond, hu, maxRetries, Option.isNone_none, Bool.true_and, decide_eq_true_eq]
        omega

/-! ## The claims on `saveUserData`, `googleLogin` and the reach of the creation step -/

/-- C21: for every uid and payload, `saveUserData` without a fault returns `true`
and writes, by `setDoc`, a record with exactly the fields `name`, `email`,
`phonenum`, `address`, `pincode`, `dob`, `isAdmin`, `createdAt` and `updatedAt`
(with a fault it writes nothing and throws the fault again); each of the six
string fields holds the payload's string, and the empty string when the payload
lacks the field or holds a falsy value there; `isAdmin` is `false` when the
payload holds no truthy `isAdmin`; both timestamps are the time of the call. -/
theorem saveUserData_record (now : Nat) (fs : Firestore) (uid : String) (userData : Doc) :
    saveUserData now none fs uid userData =
        (Except.ok true, fs.setDoc uid (savedRecord now userData)) ∧
    (∀ e, saveUserData now (some e) fs uid userData = (Except.error e, fs)) ∧
    (∀ k, (savedRecord now userData).has k = true ↔
      k ∈ ["name", "email", "phonenum", "address", "pincode", "dob", "isAdmin", "createdAt",
        "updatedAt"]) ∧
    (∀ k ∈ ["name", "email", "phonenum", "address", "pincode", "dob"],
      (∀ v, userData.get k = JsVal.str v → (savedRecord now userData).get k = JsVal.str v) ∧
      (userData.has k = false → (savedRecord now userData).get k = JsVal.str "") ∧
      ((userData.get k).truthy = true → (savedRecord now userData).get k = userData.get k) ∧
      ((userData.get k).truthy = false → (savedRecord now userData).get k = JsVal.str "")) ∧
    ((userData.get "isAdmin").truthy = false →
      (savedRecord now userData).get "isAdmin" = JsVal.bool false) ∧
    ((userData.get "isAdmin").truthy = true →
      (savedRecord now userData).get "isAdmin" = userData.get "isAdmin") ∧
    (savedRecord now userData).get "createdAt" = JsVal.time now ∧
    (savedRecord now userData).get "updatedAt" = JsVal.time now := by
  have hfield : ∀ k ∈ ["name", "email", "phonenum", "address", "pincode", "dob"],
      (savedRecord now userData).get k = (userData.get k).or (JsVal.str "") := by
    intro k hk
    simp only [List.mem_cons, List.mem_singleton, List.not_mem_nil, or_false] at hk
    rcases hk with rfl | rfl | rfl | rfl | rfl | rfl <;> rfl
  refine ⟨rfl, fun e => rfl, fun k => ?_, fun k hk => ?_, ?_, ?_, rfl, rfl⟩
  · rw [has_iff_mem_keys]; rfl
  · rw [hfield k hk]
    refine ⟨fun v hv => ?_, fun hno => ?_, fun ht => by simp [JsVal.or, ht], fun hf => or_of_falsy _ _ hf⟩
    · rw [hv]
      by_cases h : v = "" <;> simp [JsVal.or, JsVal.truthy, h]
    · have : userData.get k = JsVal.undefined := by
        simp only [Doc.has] at hno
        simp only [Doc.get]
        cases hl : List.lookup k userData with
        | none => rfl
        | some x => simp [hl] at hno
      rw [this]; rfl
  · intro hf
    show ((userData.get "isAdmin").or (JsVal.bool false)) = JsVal.bool false
    exact or_of_falsy _ _ hf
  · intro ht
    show ((userData.get "isAdmin").or (JsVal.bool false)) = userData.get "isAdmin"
    simp [JsVal.or, ht]

/-- C22 (code defect): on the first Google sign-in of `gina`, whose `photoURL` is
non-empty, `googleLogin` returns the user after one `saveUserData` call whose
payload carries `profilePic` equal to the `photoURL`, but the record stored for
her has no `profilePic` field: the object literal of `saveUserData` has none,
whatever the payload.  The other half of the claim holds: a sign-in that
resolves calls `saveUserData` iff `isNewUser` is truthy. -/
theorem googleLogin_drops_profilePic :
    (googleLogin 9 (Except.ok ginaFirstSignIn) none AuthState.initial).1 = Except.ok gina ∧
    (googleLogin 9 (Except.ok ginaFirstSignIn) none AuthState.initial).2.saveCalls =
      [("g1", googlePayload gina)] ∧
    (googlePayload gina).get "profilePic" = JsVal.str "https://pics.example/gina.png" ∧
    (googleLogin 9 (Except.ok ginaFirstSignIn) none AuthState.initial).2.store "g1" =
      some (savedRecord 9 (googlePayload gina)) ∧
    (savedRecord 9 (googlePayload gina)).has "profilePic" = false ∧
    (∀ now userData, (savedRecord now userData).has "profilePic" = false) ∧
    (∀ now result saveFault s,
      (googleLogin now (Except.ok result) saveFault s).2.saveCalls =
        if result.isNewUser.truthy then
          s.saveCalls ++ [(result.user.uid, googlePayload result.user)]
        else s.saveCalls) := by
  refine ⟨rfl, rfl, rfl, rfl, rfl, fun _ _ => rfl, fun now result saveFault s => ?_⟩
  cases ht : result.isNewUser.truthy with
  | false => simp [googleLogin, ht]
  | true => cases saveFault <;> simp [googleLogin, ht, saveUserData]

/-- C23: for every sequence of store responses and every amount of fuel, the retry
loop started as `fetchUserData` starts it has `retryCount` at most
`maxRetries - 1`; when it ends normally it holds a fetched record; when it throws
it re-throws the error of a fetch made while `retryCount` is 2.  So the block
guarded by `!userData` is never entered: no run of `fetchUserData` adds an
`updateUserData` call to the log or changes the collection. -/
theorem fetchUserData_creation_unreachable (env : Env) (fs : Firestore) (uid : String)
    (log : List Event) (currentUser : Option User) (fuel : Nat) (s : State) :
    (retryLoop env fs uid fuel
        { userData := none, retryCount := 0, fetches := 0, log := log }).state.retryCount ≤
      maxRetries - 1 ∧
    (∀ l, retryLoop env fs uid fuel
        { userData := none, retryCount := 0, fetches := 0, log := log } = LoopRun.done l →
      ∃ d, l.userData = some d) ∧
    (∀ l e, retryLoop env fs uid fuel
        { userData := none, retryCount := 0, fetches := 0, log := log } = LoopRun.threw l e →
      l.retryCount = 2 ∧
        ∃ k, getUserData env.dbReady fs (env.fetchNet k) uid = Except.error e) ∧
    updateCalls (fetchUserData env currentUser fuel s).state.log = updateCalls s.log ∧
    (fetchUserData env currentUser fuel s).state.store = s.store := by
  have hinv := retryLoop_invariant env fs uid fuel
    { userData := none, retryCount := 0, fetches := 0, log := log } (by simp)
  refine ⟨hinv.1, hinv.2.1, hinv.2.2, ?_⟩
  cases currentUser with
  | none => exact ⟨rfl, rfl⟩
  | some u =>
    by_cases huid : u.uid = ""
    · simp [fetchUserData, huid, Run.state]
    · have hloop := retryLoop_updateCalls env s.store u.uid fuel
        { userData := none, retryCount := 0, fetches := 0, log := s.log }
      have hdone := (retryLoop_invariant env s.store u.uid fuel
        { userData := none, retryCount := 0, fetches := 0, log := s.log } (by simp)).2.1
      rcases hr : retryLoop env s.store u.uid fuel
        { userData := none, retryCount := 0, fetches := 0, log := s.log } with l | ⟨l, e⟩ | l
      · obtain ⟨d, hd⟩ := hdone l hr
        rw [hr] at hloop
        simp only [LoopRun.state] at hloop
        simp [fetchUserData, huid, hr, createIfMissing, hd, Run.state, hloop]
      · rw [hr] at hloop
        simpa [fetchUserData, huid, hr, Run.state, LoopRun.state] using hloop
      · rw [hr] at hloop
        simpa [fetchUserData, huid, hr, Run.state, LoopRun.state] using hloop

end HotelBooking
